import Mathlib

/-!
# WebRocket: channels and the backend endpoint

A shallow embedding of `webrocket/channel.go` and
`pkg/webrocket/backend_endpoint.go`.

Conventions of the embedding.

* A Go `map[string]interface{}` is an association list `Data`; a possibly nil
  map is `Option Data`, and writing into the nil map is the run-time fault
  `Fault.nilMapWrite`.
* A `*WebsocketConnection` is `Option ConnRef`: `none` is the nil pointer and
  `some r` an address into the `Heap` of connections.
* Reading a field through a nil pointer is the fault `Fault.nilDeref`.
* `sync.Mutex` is a boolean field; locking a mutex that is already held by the
  running goroutine never returns, which is the outcome `Fault.deadlock`.
* `Broadcast` only starts its fan-out goroutine. The goroutines that are
  started and have not run yet are kept with the channel (`pending`), and
  `Channel.runFanOut` is one of them running: it ranges over the subscriber map
  as it is at that time, not as it was at the call. Its loop is run in one
  piece, that is, no other call on the channel comes in while it runs.
-/

namespace WebRocket

/-! ## Values and maps -/

/-- Values of Go type `interface{}` as they occur in the messages: the JSON
data model. Numbers are opaque leaves, the code never computes on them. -/
inductive Value where
  | null : Value
  | bool (b : Bool) : Value
  | num (n : Int) : Value
  | str (s : String) : Value
  | arr (xs : List Value) : Value
  | obj (kvs : List (String × Value)) : Value

/-- An allocated `map[string]interface{}`: at most the first entry of a key is
visible. -/
abbrev Data := List (String × Value)

/-- Go `m[k]` with the comma-ok idiom. -/
def Data.get (m : Data) (k : String) : Option Value :=
  match m with
  | [] => none
  | (k', v) :: rest => if k' = k then some v else Data.get rest k

/-- Go `m[k] = v` on an allocated map: an existing key is overwritten in
place, a new key is added. -/
def Data.set (m : Data) (k : String) (v : Value) : Data :=
  match m with
  | [] => [(k, v)]
  | (k', v') :: rest => if k' = k then (k, v) :: rest else (k', v') :: Data.set rest k v

/-- The loop `for k, v := range src { dst[k] = v }`. Go leaves the order of
the iteration open; for a map, whose keys are distinct, every order gives the
same result. -/
def Data.merge (dst src : Data) : Data :=
  src.foldr (fun kv acc => Data.set acc kv.1 kv.2) dst

/-- Run-time outcomes that are not a normal return. -/
inductive Fault where
  | deadlock : Fault
  | nilMapWrite : Fault
  | nilDeref : Fault
  deriving DecidableEq, Repr

/-! ## Websocket connections and subscriptions -/

/-- An address of a `WebsocketConnection`. -/
abbrev ConnRef := Nat

/-- Modelled from the spec: the `WebsocketConnection` type is not part of the
sources at hand. It has a session id (`Id()`), the subscription shortcut map
(channel name to channel, of which the keys are kept) and `Send`, whose
arguments are recorded in `outbox`, oldest first. -/
structure WebsocketConnection where
  id : String
  subscriptions : List String
  outbox : List Data

/-- The connections that exist, by address. -/
abbrev Heap := ConnRef → WebsocketConnection

/-- The effect of `client.Send(x)`. -/
def Heap.send (h : Heap) (c : ConnRef) (x : Data) : Heap :=
  fun r => if r = c then { h r with outbox := (h r).outbox ++ [x] } else h r

/-- The effect of `client.subscriptions[name] = ch`. -/
def Heap.addShortcut (h : Heap) (c : ConnRef) (name : String) : Heap :=
  fun r => if r = c then
      { h r with subscriptions :=
          if name ∈ (h r).subscriptions then (h r).subscriptions
          else (h r).subscriptions ++ [name] }
    else h r

/-- The effect of `delete(client.subscriptions, name)`. -/
def Heap.delShortcut (h : Heap) (c : ConnRef) (name : String) : Heap :=
  fun r => if r = c then
      { h r with subscriptions := (h r).subscriptions.filter (fun n => n ≠ name) }
    else h r

/-- Modelled from the spec: the `Subscription` type is not part of the sources
at hand. A bound (connection, hidden flag, presence metadata) triple with the
getters `Client()`, `IsHidden()` and `Data()`. -/
structure Subscription where
  client : Option ConnRef
  hidden : Bool
  data : Data

/-- The constructor `newSubscription(client, hidden, data)`. -/
def newSubscription (client : Option ConnRef) (hidden : Bool) (data : Data) : Subscription :=
  { client := client, hidden := hidden, data := data }

/-! ## Channels -/

/-- The constant `ChannelNormal`. -/
def ChannelNormal : Int := 0
/-- The constant `ChannelPrivate`. -/
def ChannelPrivate : Int := 2
/-- The constant `ChannelPresence`. -/
def ChannelPresence : Int := 3

/-- The struct `Channel`. The subscriber map is an association list by session
id; `mtx` is true while the mutex is held. The last field is not one of the
source: `pending` lists the fan-out goroutines that `Broadcast` has started on
the subscriber map of this channel and that have not run yet, each with its
payload and its `includeHidden`, oldest first. -/
structure Channel where
  name : String
  kind : Int
  subscribers : List (String × Subscription)
  alive : Bool
  mtx : Bool
  pending : List (Data × Bool) := []

/-- Lookup in the subscriber map, `ch.subscribers[sid]`. -/
def lookupSub (subs : List (String × Subscription)) (sid : String) : Option Subscription :=
  match subs with
  | [] => none
  | (k, s) :: rest => if k = sid then some s else lookupSub rest sid

/-- The builtin `delete(ch.subscribers, sid)`. -/
def deleteSub (subs : List (String × Subscription)) (sid : String) :
    List (String × Subscription) :=
  match subs with
  | [] => []
  | (k, s) :: rest => if k = sid then deleteSub rest sid else (k, s) :: deleteSub rest sid

/-- The assignment `ch.subscribers[sid] = s`. -/
def insertSub (subs : List (String × Subscription)) (sid : String) (s : Subscription) :
    List (String × Subscription) :=
  match subs with
  | [] => [(sid, s)]
  | (k, s') :: rest => if k = sid then (sid, s) :: rest else (k, s') :: insertSub rest sid s

/-- The call `ch.mtx.Lock()`: it does not return when the mutex is held. -/
def Channel.lock (ch : Channel) : Except Fault Channel :=
  if ch.mtx then .error .deadlock else .ok { ch with mtx := true }

/-- The call `ch.mtx.Unlock()`. -/
def Channel.unlock (ch : Channel) : Channel := { ch with mtx := false }

/-- The method `IsPrivate`. -/
def Channel.IsPrivate (ch : Channel) : Bool :=
  decide (Int.land ch.kind ChannelPrivate = ChannelPrivate)

/-- The method `IsPresence`. -/
def Channel.IsPresence (ch : Channel) : Bool :=
  decide (Int.land ch.kind ChannelPresence = ChannelPresence)

/-- The method `IsAlive`: takes the mutex, reads the flag, and the deferred
unlock releases the mutex again. -/
def Channel.IsAlive (ch : Channel) : Except Fault Bool :=
  match ch.lock with
  | .error e => .error e
  | .ok c => .ok c.alive

/-- The method `Subscribers`: the subscriber map, read under the mutex. What is
returned is the map itself, a reference, and not a copy of it. -/
def Channel.Subscribers (ch : Channel) : Except Fault (List (String × Subscription)) :=
  match ch.lock with
  | .error e => .error e
  | .ok c => .ok c.subscribers

/-- The guarded send `if client != nil { client.Send(x) }`. -/
def Heap.sendTo (h : Heap) (client : Option ConnRef) (x : Data) : Heap :=
  match client with
  | some c => h.send c x
  | none => h

/-- The body of the goroutine of `Broadcast`: one `Send` per subscription that
is not filtered out and has a client. -/
def fanOut (subs : List (String × Subscription)) (x : Data) (includeHidden : Bool)
    (h : Heap) : Heap :=
  match subs with
  | [] => h
  | (_, s) :: rest =>
    if s.hidden && !includeHidden then fanOut rest x includeHidden h
    else fanOut rest x includeHidden (h.sendTo s.client x)

/-- The statement `go func(subscribers) ...`: one more goroutine is started on
the subscriber map of the channel. -/
def Channel.start (ch : Channel) (x : Data) (includeHidden : Bool) : Channel :=
  { ch with pending := ch.pending ++ [(x, includeHidden)] }

/-- The method `Broadcast`: `ch.Subscribers()` is evaluated at the call, under
the mutex, and the goroutine that ranges over the map it returns is started.
Nothing is sent by the call itself. -/
def Channel.Broadcast (ch : Channel) (h : Heap) (x : Data) (includeHidden : Bool) :
    Except Fault (Channel × Heap) :=
  match ch.Subscribers with
  | .error e => .error e
  | .ok _ => .ok (ch.start x includeHidden, h)

/-- A goroutine started by `Broadcast` runs: the `i`-th of those that have not
run yet ranges over the subscriber map as it is now, without taking the mutex
and without looking at the alive flag, and is done. -/
def Channel.runFanOut (ch : Channel) (h : Heap) (i : Nat) : Channel × Heap :=
  match ch.pending.get? i with
  | none => (ch, h)
  | some (x, includeHidden) =>
    ({ ch with pending := ch.pending.eraseIdx i }, fanOut ch.subscribers x includeHidden h)

/-- The method `HasSubscriber`. -/
def Channel.HasSubscriber (ch : Channel) (h : Heap) (client : Option ConnRef) :
    Except Fault Bool :=
  match client with
  | none => .ok false
  | some c =>
    match ch.lock with
    | .error e => .error e
    | .ok l => .ok (lookupSub l.subscribers (h c).id).isSome

/-- The method `subscribe`. -/
def Channel.subscribe (ch : Channel) (h : Heap) (client : Option ConnRef) (hidden : Bool)
    (data : Option Data) : Except Fault (Channel × Heap) :=
  match client with
  | none => .ok (ch, h)
  | some c =>
    match ch.IsAlive with
    | .error e => .error e
    | .ok false => .ok (ch, h)
    | .ok true =>
      match ch.lock with
      | .error e => .error e
      | .ok l =>
        let sid := (h c).id
        if (lookupSub l.subscribers sid).isSome then .ok (l.unlock, h)
        else
          match data with
          | none => .error .nilMapWrite
          | some d0 =>
            let d := (d0.set "sid" (.str sid)).set "channel" (.str l.name)
            let subscribers : List Value :=
              if l.IsPresence then l.subscribers.map (fun e => Value.obj e.2.data) else []
            let sdata : Data := [("channel", .str l.name)]
            let sdata := if l.IsPresence then sdata.set "subscribers" (.arr subscribers) else sdata
            let h1 := h.send c [(":subscribed", .obj sdata)]
            let l1 := { l with subscribers := insertSub l.subscribers sid (newSubscription (some c) hidden d) }
            let h2 := h1.addShortcut c l1.name
            let u := l1.unlock
            if u.IsPresence && !hidden then u.Broadcast h2 [(":memberJoined", .obj d)] true
            else .ok (u, h2)

/-- The method `unsubscribe`. -/
def Channel.unsubscribe (ch : Channel) (h : Heap) (client : Option ConnRef)
    (data : Option Data) (confirm : Bool) : Except Fault (Channel × Heap) :=
  match client with
  | none => .ok (ch, h)
  | some c =>
    match ch.IsAlive with
    | .error e => .error e
    | .ok false => .ok (ch, h)
    | .ok true =>
      match ch.lock with
      | .error e => .error e
      | .ok l =>
        let sid := (h c).id
        match lookupSub l.subscribers sid with
        | none => .ok (l.unlock, h)
        | some s =>
          let h1 := if confirm then
              h.send c [(":unsubscribed", .obj [("channel", .str l.name)])]
            else h
          let l1 := { l with subscribers := deleteSub l.subscribers sid }
          let h2 := h1.delShortcut c l1.name
          let u := l1.unlock
          if u.IsPresence && !s.hidden then
            match data with
            | none => .error .nilMapWrite
            | some d0 =>
              let d := ((d0.merge s.data).set "sid" (.str sid)).set "channel" (.str u.name)
              u.Broadcast h2 [(":memberLeft", .obj d)] true
          else .ok (u, h2)

/-- The loop of `Kill` over the subscriber map: an entry deleted before the
loop reaches it is not visited. -/
def killLoop (entries : List (String × Subscription)) (ch : Channel) (h : Heap) :
    Except Fault (Channel × Heap) :=
  match entries with
  | [] => .ok (ch, h)
  | (sid, s) :: rest =>
    if (lookupSub ch.subscribers sid).isSome then
      match ch.unsubscribe h s.client (some []) false with
      | .error e => .error e
      | .ok (ch1, h1) => killLoop rest ch1 h1
    else killLoop rest ch h

/-- The method `Kill`. The mutex is held for the whole body and released by
the deferred unlock. -/
def Channel.Kill (ch : Channel) (h : Heap) : Except Fault (Channel × Heap) :=
  match ch.lock with
  | .error e => .error e
  | .ok l =>
    if l.alive then
      match killLoop l.subscribers { l with alive := false } h with
      | .error e => .error e
      | .ok (l1, h1) => .ok (l1.unlock, h1)
    else .ok (l.unlock, h)

/-! ## Specification-level notions -/

/-- The connections a fan-out sends to, one entry per `Send`. -/
def recipients (subs : List (String × Subscription)) (includeHidden : Bool) : List ConnRef :=
  match subs with
  | [] => []
  | (_, s) :: rest =>
    if s.hidden && !includeHidden then recipients rest includeHidden
    else
      match s.client with
      | some c => c :: recipients rest includeHidden
      | none => recipients rest includeHidden

/-- The clients of all subscriptions of a subscriber map. -/
def clientsOf (subs : List (String × Subscription)) : List ConnRef :=
  subs.filterMap (fun e => e.2.client)

/-! ## Channel construction and operation sequences -/

/-- The class `[\w\d\_]` of `validChannelNamePattern`: an ASCII letter, digit
or underscore. -/
def isWordChar (c : Char) : Bool :=
  ('a' ≤ c && c ≤ 'z') || ('A' ≤ c && c ≤ 'Z') || ('0' ≤ c && c ≤ '9') || c = '_'

/-- The class `[\w\d\-\_\.]` of `validChannelNamePattern`. -/
def isNameChar (c : Char) : Bool :=
  isWordChar c || c = '-' || c = '.'

/-- The test `validChannelNamePattern.MatchString(name)` for the pattern
`^[\w\d\_][\w\d\-\_\.]*$`. -/
def validChannelName (name : String) : Bool :=
  match name.toList with
  | [] => false
  | c :: cs => isWordChar c && cs.all isNameChar

/-- The constructor `newChannel`. -/
def newChannel (name : String) (kind : Int) : Except String Channel :=
  if !validChannelName name then .error "invalid channel name"
  else .ok { name := name, kind := kind, subscribers := [], alive := true, mtx := false }

/-- One call on a channel, with its arguments, or the run of a goroutine that
`Broadcast` has started: `deliver i` is the `i`-th of those that have not run
yet. Clients are non-nil and data maps are allocated. -/
inductive Op where
  | subscribe (c : ConnRef) (hidden : Bool) (data : Data) : Op
  | unsubscribe (c : ConnRef) (data : Data) (confirm : Bool) : Op
  | broadcast (x : Data) (includeHidden : Bool) : Op
  | kill : Op
  | deliver (i : Nat) : Op

/-- The call, or the run of a goroutine, an `Op` stands for. -/
def Op.apply (op : Op) (st : Channel × Heap) : Except Fault (Channel × Heap) :=
  match op with
  | .subscribe c hidden data => st.1.subscribe st.2 (some c) hidden (some data)
  | .unsubscribe c data confirm => st.1.unsubscribe st.2 (some c) (some data) confirm
  | .broadcast x includeHidden => st.1.Broadcast st.2 x includeHidden
  | .kill => st.1.Kill st.2
  | .deliver i => .ok (st.1.runFanOut st.2 i)

/-- The calls of a sequence, one after the other; a call that does not return
ends the run. -/
def run (ops : List Op) (st : Channel × Heap) : Except Fault (Channel × Heap) :=
  match ops with
  | [] => .ok st
  | op :: rest =>
    match op.apply st with
    | .error e => .error e
    | .ok st1 => run rest st1

/-- Connections with session ids `s`, `ss`, `sss`, ...: pairwise distinct. -/
def freshHeap : Heap :=
  fun r => { id := String.mk (List.replicate (r + 1) 's'), subscriptions := [], outbox := [] }

/-- The metadata `subscribe` stores: the caller's data with `sid` and `channel`
set. -/
def joinData (ch : Channel) (sid : String) (d : Data) : Data :=
  (d.set "sid" (.str sid)).set "channel" (.str ch.name)

/-- The `:subscribed` confirmation `subscribe` sends. -/
def subscribedMsg (ch : Channel) : Data :=
  [(":subscribed", .obj
    (if ch.IsPresence then
      Data.set [("channel", .str ch.name)] "subscribers"
        (.arr (ch.subscribers.map (fun e => Value.obj e.2.data)))
     else [("channel", .str ch.name)]))]

/-- The channel after a new subscription of the client with session id `sid`. -/
def withSubscriber (ch : Channel) (c : ConnRef) (sid : String) (hidden : Bool) (d : Data) :
    Channel :=
  { ch with subscribers :=
      insertSub ch.subscribers sid (newSubscription (some c) hidden (joinData ch sid d)) }

/-- The metadata `unsubscribe` broadcasts in `:memberLeft`: the caller's data
with the stored metadata copied over it, then `sid` and `channel` set. -/
def leftData (ch : Channel) (sid : String) (s : Subscription) (d : Data) : Data :=
  ((d.merge s.data).set "sid" (.str sid)).set "channel" (.str ch.name)

/-- The `:unsubscribed` confirmation `unsubscribe` sends. -/
def unsubscribedMsg (ch : Channel) : Data :=
  [(":unsubscribed", .obj [("channel", .str ch.name)])]

/-- The channel after the subscription under `sid` is deleted. -/
def withoutSubscriber (ch : Channel) (sid : String) : Channel :=
  { ch with subscribers := deleteSub ch.subscribers sid }

/-- The shape `subscribe` and `unsubscribe` keep of the subscriber map: the
keys are distinct, every subscription has a client and is filed under the
session id of its client, and its metadata records that id and the channel
name. -/
structure WellFormed (h0 : Heap) (ch : Channel) : Prop where
  keys : (ch.subscribers.map Prod.fst).Nodup
  owner : ∀ e ∈ ch.subscribers, ∃ c, e.2.client = some c ∧ (h0 c).id = e.1
  stored : ∀ e ∈ ch.subscribers,
    e.2.data.get "sid" = some (.str e.1) ∧ e.2.data.get "channel" = some (.str ch.name)

/-! ## The backend endpoint -/

/-- The struct `Status`: a message and a code. -/
structure Status where
  Message : String
  Code : Int
  deriving DecidableEq, Repr

/-- Modelled from the spec: the `backendIdentity` type is not part of the
sources at hand. The parsed identity line
`<sock>:<vhost>:<access-token>:<client-id>`; the field `Type` of the source is
`Kind` here. -/
structure backendIdentity where
  Kind : String
  Vhost : String
  AccessToken : String
  Id : String
  deriving DecidableEq, Repr

/-- Modelled from the spec: the `backendRequest` type is not part of the
sources at hand. The identity frame, the command frame and the remaining
frames of a received message. -/
structure backendRequest where
  Identity : String
  Command : String
  Message : List String
  deriving DecidableEq, Repr

/-- The method `Len` of a request: the number of payload frames. -/
def backendRequest.Len (req : backendRequest) : Nat := req.Message.length

/-- The constant `BackendSocketReq`. -/
def BackendSocketReq : String := "req"
/-- The constant `BackendSocketDealer`. -/
def BackendSocketDealer : String := "dlr"

/-- Modelled from the spec: the lobby type is not part of the sources at hand.
The worker set of a vhost, by worker identity, and the pending payloads. -/
structure Lobby where
  workers : List String
  queue : List Data

/-- Modelled from the spec: `addWorker` makes the worker eligible for dispatch. -/
def Lobby.addWorker (l : Lobby) (id : String) : Lobby :=
  { l with workers := l.workers ++ [id] }

/-- Modelled from the spec: `deleteWorker` removes the worker. -/
def Lobby.deleteWorker (l : Lobby) (id : String) : Lobby :=
  { l with workers := l.workers.filter (fun w => w ≠ id) }

/-- Modelled from the spec: the `Permission` type is not part of the sources at
hand. A uid, the source of the channel-name pattern and the token. -/
structure Permission where
  uid : String
  pattern : String
  token : String

/-- Modelled from the spec: the `Vhost` type is not part of the sources at
hand. A path, the access token, the channel table by name, the permission
table by uid and the lobby (a pointer, so possibly nil). -/
structure Vhost where
  path : String
  accessToken : String
  channels : List Channel
  permissions : List Permission
  lobby : Option Lobby

/-- Modelled from the spec: `Vhost.Channel(name)` is the channel of that name,
an error if there is none. -/
def Vhost.Channel (v : Vhost) (name : String) : Option WebRocket.Channel :=
  v.channels.find? (fun c => c.name = name)

/-- The channel table with the entry of the name of `ch` replaced by `ch`. In
the source the table holds pointers and is not written to; here the entry
carries the goroutines started on the channel. -/
def Vhost.putChannel (v : Vhost) (ch : WebRocket.Channel) : Vhost :=
  { v with channels := v.channels.map (fun c => if c.name = ch.name then ch else c) }

/-- Modelled from the spec: `Vhost.OpenChannel(name, kind)` validates the name
by `newChannel` and enters the new channel in the table. -/
def Vhost.OpenChannel (v : Vhost) (name : String) (kind : Int) :
    Except String (WebRocket.Channel × Vhost) :=
  match newChannel name kind with
  | .error e => .error e
  | .ok ch => .ok (ch, { v with channels := v.channels ++ [ch] })

/-- Modelled from the spec: `Vhost.DeleteChannel(name)` removes the channel
from the table and fails with "channel doesn't exist" if there is none. -/
def Vhost.DeleteChannel (v : Vhost) (name : String) : Except String Vhost :=
  match v.Channel name with
  | none => .error "channel doesn't exist"
  | some _ => .ok { v with channels := v.channels.filter (fun c => c.name ≠ name) }

/-- Modelled from the spec: `Vhost.GenerateSingleAccessToken(uid, pattern)`
makes a permission and enters it in the table under `uid`; the result is its
token, or the empty string if no permission could be made. The random token
comes from `newToken`, which gives `none` when `NewPermission` fails. -/
def Vhost.GenerateSingleAccessToken (newToken : String → String → Option String)
    (v : Vhost) (uid pattern : String) : String × Vhost :=
  match newToken uid pattern with
  | none => ("", v)
  | some token =>
    (token, { v with permissions :=
      v.permissions.filter (fun p => p.uid ≠ uid) ++ [⟨uid, pattern, token⟩] })

/-- Modelled from the spec: the `Context` type is not part of the sources at
hand. Of the root container, the vhost table by path. -/
structure Context where
  vhosts : List Vhost

/-- Modelled from the spec: `Context.Vhost(path)` is the vhost added under that
path, an error if there is none. -/
def Context.Vhost (ctx : Context) (path : String) : Option WebRocket.Vhost :=
  ctx.vhosts.find? (fun v => v.path = path)

/-- The vhost table with the vhost of the path of `v` replaced by `v`. -/
def Context.putVhost (ctx : Context) (v : WebRocket.Vhost) : Context :=
  { ctx with vhosts := ctx.vhosts.map (fun w => if w.path = v.path then v else w) }

/-- What `json.Unmarshal(frame, &data)` does to a nil `data` of type
`map[string]interface{}`: it reports an error, or reports none and leaves the
map nil (the literal `null`), or reports none and stores an object. -/
inductive Unmarshaled where
  | failed : Unmarshaled
  | null : Unmarshaled
  | object (m : Data) : Unmarshaled

/-- What a handler returns to `handle`: the status, the replies it sent to the
peer (each a list of frames), and the vhost and connections as it leaves
them. -/
structure Handled where
  status : Status
  replies : List (List String)
  vhost : Vhost
  heap : Heap

/-- The method `authenticate`. The parser `parseBackendIdentity` is a
parameter. The results are the named results `vhost`, `idty` and `ok` as the
function leaves them. -/
def BackendEndpoint.authenticate (parseBackendIdentity : String → Option backendIdentity)
    (ctx : Context) (rawIdentity : String) : Option Vhost × Option backendIdentity × Bool :=
  match parseBackendIdentity rawIdentity with
  | none => (none, none, false)
  | some idty =>
    match ctx.Vhost idty.Vhost with
    | none => (none, some idty, false)
    | some vhost =>
      if vhost.accessToken ≠ idty.AccessToken then (some vhost, some idty, false)
      else (some vhost, some idty, true)

/-- The method `dispatchDealer`. The worker of an `RD` request is registered,
listens until it disconnects, and is deregistered by the deferred call. -/
def BackendEndpoint.dispatchDealer (vhost : Vhost) (heap : Heap) (req : backendRequest)
    (idty : backendIdentity) : Handled :=
  match vhost.lobby with
  | none => ⟨⟨"Internal error", 597⟩, [], vhost, heap⟩
  | some lobby =>
    if req.Command = "RD" then
      ⟨⟨"Disconnected", 309⟩, [],
        { vhost with lobby := some ((lobby.addWorker idty.Id).deleteWorker idty.Id) }, heap⟩
    else if req.Command = "HB" then
      ⟨⟨"Expired", 408⟩, [["QT"]], vhost, heap⟩
    else ⟨⟨"Bad request", 400⟩, [], vhost, heap⟩

/-- The method `handleReqBroadcast`. The decoder `json.Unmarshal` is a
parameter. -/
def BackendEndpoint.handleReqBroadcast (jsonUnmarshal : String → Unmarshaled)
    (vhost : Vhost) (heap : Heap) (req : backendRequest) : Except Fault Handled :=
  if req.Len < 3 then .ok ⟨⟨"Bad request", 400⟩, [], vhost, heap⟩
  else
    let chanName := req.Message.getD 0 ""
    let eventName := req.Message.getD 1 ""
    if chanName = "" ∨ eventName = "" then .ok ⟨⟨"Bad request", 400⟩, [], vhost, heap⟩
    else
      let data : Option Data :=
        match jsonUnmarshal (req.Message.getD 2 "") with
        | .failed => some []
        | .null => none
        | .object m => some m
      match vhost.Channel chanName with
      | none => .ok ⟨⟨"Channel not found", 454⟩, [], vhost, heap⟩
      | some channel =>
        match data with
        | none => .error .nilMapWrite
        | some d =>
          match channel.Broadcast heap [(eventName, .obj (d.set "channel" (.str chanName)))] false with
          | .error e => .error e
          | .ok (channel1, heap1) =>
            .ok ⟨⟨"Broadcasted", 204⟩, [["OK"]], vhost.putChannel channel1, heap1⟩

/-- The function `channelTypeFromName`: `strings.Split(name, "-")` has more
than one part exactly if the name contains a dash, and its first part is the
text before the first dash. -/
def channelTypeFromName (name : String) : Int :=
  if '-' ∈ name.toList then
    let first := String.mk (name.toList.takeWhile (fun c => c ≠ '-'))
    if first = "presence" then ChannelPresence
    else if first = "private" then ChannelPrivate
    else ChannelNormal
  else ChannelNormal

/-- The method `handleReqOpenChannel`. -/
def BackendEndpoint.handleReqOpenChannel (vhost : Vhost) (heap : Heap) (req : backendRequest) :
    Handled :=
  if req.Len < 1 then ⟨⟨"Bad request", 400⟩, [], vhost, heap⟩
  else
    let chanName := req.Message.getD 0 ""
    if chanName = "" then ⟨⟨"Bad request", 400⟩, [], vhost, heap⟩
    else
      match vhost.Channel chanName with
      | some _ => ⟨⟨"Channel exists", 251⟩, [["OK"]], vhost, heap⟩
      | none =>
        match vhost.OpenChannel chanName (channelTypeFromName chanName) with
        | .error _ => ⟨⟨"Invalid channel name", 451⟩, [], vhost, heap⟩
        | .ok (_, vhost1) => ⟨⟨"Channel opened", 250⟩, [["OK"]], vhost1, heap⟩

/-- The method `handleReqCloseChannel`. -/
def BackendEndpoint.handleReqCloseChannel (vhost : Vhost) (heap : Heap) (req : backendRequest) :
    Handled :=
  if req.Len < 1 then ⟨⟨"Bad request", 400⟩, [], vhost, heap⟩
  else
    let chanName := req.Message.getD 0 ""
    if chanName = "" then ⟨⟨"Bad request", 400⟩, [], vhost, heap⟩
    else
      match vhost.DeleteChannel chanName with
      | .error _ => ⟨⟨"Channel not found", 454⟩, [], vhost, heap⟩
      | .ok vhost1 => ⟨⟨"Channel closed", 252⟩, [["OK"]], vhost1, heap⟩

/-- The method `handleReqSingleAccessTokenRequest`. -/
def BackendEndpoint.handleReqSingleAccessTokenRequest
    (newToken : String → String → Option String)
    (vhost : Vhost) (heap : Heap) (req : backendRequest) : Handled :=
  if req.Len < 2 then ⟨⟨"Bad request", 400⟩, [], vhost, heap⟩
  else
    let uid := req.Message.getD 0 ""
    let pattern := req.Message.getD 1 ""
    if pattern = "" ∨ uid = "" then ⟨⟨"Bad request", 400⟩, [], vhost, heap⟩
    else
      let r := vhost.GenerateSingleAccessToken newToken uid pattern
      if r.1 = "" then ⟨⟨"Internal error", 597⟩, [], vhost, heap⟩
      else ⟨⟨"Single access token generated", 270⟩, [["AT", r.1]], r.2, heap⟩

/-- The method `dispatchReq`. -/
def BackendEndpoint.dispatchReq (jsonUnmarshal : String → Unmarshaled)
    (newToken : String → String → Option String)
    (vhost : Vhost) (heap : Heap) (req : backendRequest) : Except Fault Handled :=
  if req.Command = "BC" then BackendEndpoint.handleReqBroadcast jsonUnmarshal vhost heap req
  else if req.Command = "OC" then .ok (BackendEndpoint.handleReqOpenChannel vhost heap req)
  else if req.Command = "CC" then .ok (BackendEndpoint.handleReqCloseChannel vhost heap req)
  else if req.Command = "AT" then
    .ok (BackendEndpoint.handleReqSingleAccessTokenRequest newToken vhost heap req)
  else .ok ⟨⟨"Bad request", 400⟩, [], vhost, heap⟩

/-- A line written by `b.log.Printf`: the vhost path or `???`, the status, and
the request if there is one. -/
structure LogEntry where
  vhostPath : String
  status : Status
  request : Option backendRequest
  deriving DecidableEq, Repr

/-- The method `logStatus`: the replies it sends and the lines it logs. -/
def BackendEndpoint.logStatus (vhost : Option Vhost) (s : Status) (req : Option backendRequest) :
    List (List String) × List LogEntry :=
  let vhostPath := match vhost with
    | some v => v.path
    | none => "???"
  if s.Code ≥ 400 then
    ((match req with
      | some _ => [["ER", toString s.Code]]
      | none => []), [⟨vhostPath, s, req⟩])
  else if s.Code ≥ 300 ∧ s.Code < 400 then ([], [])
  else ([], [⟨vhostPath, s, req⟩])

/-- What `handle` leaves behind: the status it ends with, the frames sent to
the peer in order, the lines logged, and the context and connections. -/
structure HandleResult where
  status : Status
  sent : List (List String)
  log : List LogEntry
  ctx : Context
  heap : Heap

/-- The method `handle`. The argument `recv` is the result of `c.Recv()`, `none`
when it reports an error. -/
def BackendEndpoint.handle (parseBackendIdentity : String → Option backendIdentity)
    (jsonUnmarshal : String → Unmarshaled) (newToken : String → String → Option String)
    (ctx : Context) (heap : Heap) (recv : Option backendRequest) : Except Fault HandleResult :=
  match recv with
  | none =>
    let s : Status := ⟨"Bad request", 400⟩
    let l := BackendEndpoint.logStatus none s none
    .ok ⟨s, [["ER", "400"]] ++ l.1, l.2, ctx, heap⟩
  | some req =>
    let a := BackendEndpoint.authenticate parseBackendIdentity ctx req.Identity
    if !a.2.2 then
      let s : Status := ⟨"Unauthorized", 402⟩
      let l := BackendEndpoint.logStatus a.1 s (some req)
      .ok ⟨s, l.1, l.2, ctx, heap⟩
    else
      match a.1, a.2.1 with
      | some vhost, some idty =>
        if idty.Kind = BackendSocketDealer then
          let r := BackendEndpoint.dispatchDealer vhost heap req idty
          let l := BackendEndpoint.logStatus (some vhost) r.status (some req)
          .ok ⟨r.status, r.replies ++ l.1, l.2, ctx.putVhost r.vhost, r.heap⟩
        else if idty.Kind = BackendSocketReq then
          match BackendEndpoint.dispatchReq jsonUnmarshal newToken vhost heap req with
          | .error e => .error e
          | .ok r =>
            let l := BackendEndpoint.logStatus (some vhost) r.status (some req)
            .ok ⟨r.status, r.replies ++ l.1, l.2, ctx.putVhost r.vhost, r.heap⟩
        else
          let s : Status := ⟨"Bad request", 400⟩
          let l := BackendEndpoint.logStatus (some vhost) s (some req)
          .ok ⟨s, l.1, l.2, ctx, heap⟩
      | _, _ => .error .nilDeref

/-! ## Notions used in the statements about the backend -/

/-- The body `handleReqBroadcast` works with after decoding: the decoded
object, and the empty object for a frame that does not decode. -/
def bodyOf (u : Unmarshaled) : Option Data :=
  match u with
  | .failed => some []
  | .null => none
  | .object m => some m

/-- The replies a REQ handler leaves to be sent, by the status it returns: none
with a status of 400 or more, the one frame `OK` with a status below 300 for a
verb other than `AT`, or, for the verb `AT`, with a status below 300, the frame
`AT` and the token that `GenerateSingleAccessToken` returned for the uid and
the pattern of the request (its first two frames), which is not empty. -/
def ReplyShape (newToken : String → String → Option String) (vhost : Vhost)
    (req : backendRequest) (r : Handled) : Prop :=
  (r.replies = [] ∧ 400 ≤ r.status.Code) ∨
  (req.Command ≠ "AT" ∧ r.replies = [["OK"]] ∧ r.status.Code < 300) ∨
  (req.Command = "AT" ∧ r.status.Code < 300 ∧
    ∃ token, token = (vhost.GenerateSingleAccessToken newToken (req.Message.getD 0 "")
        (req.Message.getD 1 "")).1 ∧
      token ≠ "" ∧ r.replies = [["AT", token]])

/-! ## The identity line and sample inputs -/

/-- The fields of a line, separated by colons. -/
def splitColon (cs : List Char) : List (List Char) :=
  match cs with
  | [] => [[]]
  | c :: rest =>
    if c = ':' then [] :: splitColon rest
    else
      match splitColon rest with
      | f :: fs => (c :: f) :: fs
      | [] => [[c]]

/-- The class `[A-Za-z0-9]` of the access token. -/
def isAlnum (c : Char) : Bool :=
  ('a' ≤ c && c ≤ 'z') || ('A' ≤ c && c ≤ 'Z') || ('0' ≤ c && c ≤ '9')

/-- Modelled from the spec: `parseBackendIdentity` is not part of the sources at
hand. The identity grammar
`(req|dlr):/[A-Za-z0-9_\-./]+:[A-Za-z0-9]{40}:[0-9a-f\-]{36}`. -/
def parseBackendIdentity (raw : String) : Option backendIdentity :=
  match splitColon raw.toList with
  | [sock, vhost, token, id] =>
    let sockOk := String.mk sock = "req" ∨ String.mk sock = "dlr"
    let vhostOk := match vhost with
      | '/' :: c :: cs => (c :: cs).all (fun x => isAlnum x || x = '_' || x = '-' || x = '.' || x = '/')
      | _ => false
    let tokenOk := token.length = 40 ∧ token.all isAlnum = true
    let idOk := id.length = 36 ∧
      id.all (fun x => ('0' ≤ x && x ≤ '9') || ('a' ≤ x && x ≤ 'f') || x = '-') = true
    if sockOk ∧ vhostOk = true ∧ tokenOk ∧ idOk then
      some ⟨String.mk sock, String.mk vhost, String.mk token, String.mk id⟩
    else none
  | _ => none

/-- The results of `json.Unmarshal` on the body frames of the scenarios: the
literal `null`, the object of scenario 1, and a frame that is no JSON. -/
def scenarioUnmarshal (frame : String) : Unmarshaled :=
  if frame = "null" then .null
  else if frame = "\x7b\"x\":1\x7d" then .object [("x", .num 1)]
  else .failed

/-- A token source for the scenarios: it always succeeds, with the same token
of 128 characters. -/
def scenarioToken (_uid _pattern : String) : Option String :=
  some (String.mk (List.replicate 128 'k'))

/-- The access token of the vhost `/demo`. -/
def demoToken : String := String.mk (List.replicate 40 'T')

/-- The channel `room` with the subscribers A (client 0) and B (client 1). -/
def roomWithAB : Channel :=
  { name := "room", kind := ChannelNormal,
    subscribers := [("s", ⟨some 0, false, [("sid", .str "s"), ("channel", .str "room")]⟩),
      ("ss", ⟨some 1, false, [("sid", .str "ss"), ("channel", .str "room")]⟩)],
    alive := true, mtx := false }

/-- The vhost `/demo` with the channel `room`. -/
def demoVhost : Vhost :=
  { path := "/demo", accessToken := demoToken, channels := [roomWithAB], permissions := [],
    lobby := some ⟨[], []⟩ }

/-- A context with the vhost `/demo`. -/
def demoContext : Context := { vhosts := [demoVhost] }

/-- The identity line of a REQ peer of `/demo` with the given access token. -/
def reqIdentity (token : String) : String :=
  "req:/demo:" ++ token ++ ":12345678-90ab-cdef-0123-1234567890ab"

/-! ## Sample states -/

/-- The channel `presence-lobby` after client 0 subscribed with
`{name: "A"}`. -/
def lobbyWithA : Channel :=
  { name := "presence-lobby", kind := ChannelPresence,
    subscribers := [("s", ⟨some 0, false,
      [("name", .str "A"), ("sid", .str "s"), ("channel", .str "presence-lobby")]⟩)],
    alive := true, mtx := false }

/-- The subscription of client 1 in `presence-lobby`, made with
`{name: "B"}`. -/
def subscriptionB : Subscription :=
  { client := some 1, hidden := false,
    data := [("name", .str "B"), ("sid", .str "ss"), ("channel", .str "presence-lobby")] }

/-- The channel `presence-lobby` after client 0 subscribed with `{name: "A"}`
and client 1 with `{name: "B"}`. -/
def lobbyWithAB : Channel :=
  { lobbyWithA with subscribers := lobbyWithA.subscribers ++ [("ss", subscriptionB)] }

/-- The channel `room` with a visible subscriber (client 0), a hidden one
(client 1) and a subscription without a client. -/
def roomMixed : Channel :=
  { name := "room", kind := ChannelNormal,
    subscribers := [("s", ⟨some 0, false, []⟩), ("ss", ⟨some 1, true, []⟩),
      ("gone", ⟨none, false, []⟩)],
    alive := true, mtx := false }

/-! ## Regular expressions and the channel-name pattern -/

/-- Regular expressions over characters, as far as `validChannelNamePattern`
needs them: the empty language, the empty word, a character class,
concatenation, alternation and repetition. -/
inductive Regex where
  | none : Regex
  | eps : Regex
  | cls (f : Char → Bool) : Regex
  | seq (a b : Regex) : Regex
  | alt (a b : Regex) : Regex
  | star (a : Regex) : Regex

/-- Whether the expression matches the empty word. -/
def Regex.nullable (r : Regex) : Bool :=
  match r with
  | .none => false
  | .eps => true
  | .cls _ => false
  | .seq a b => a.nullable && b.nullable
  | .alt a b => a.nullable || b.nullable
  | .star _ => true

/-- The derivative of the expression by a character: what remains to be
matched after that character. -/
def Regex.deriv (c : Char) (r : Regex) : Regex :=
  match r with
  | .none => .none
  | .eps => .none
  | .cls f => if f c then .eps else .none
  | .seq a b =>
    if a.nullable then .alt (.seq (a.deriv c) b) (b.deriv c) else .seq (a.deriv c) b
  | .alt a b => .alt (a.deriv c) (b.deriv c)
  | .star a => .seq (a.deriv c) (.star a)

/-- Whether the expression matches the whole text, which is what `MatchString`
decides for a pattern between `^` and `$`. -/
def Regex.matchList (r : Regex) (text : List Char) : Bool :=
  match text with
  | [] => r.nullable
  | c :: cs => (r.deriv c).matchList cs

/-- The Perl class `\w`: `[0-9A-Za-z_]`. -/
def perlWord (c : Char) : Bool :=
  ('0' ≤ c && c ≤ '9') || ('A' ≤ c && c ≤ 'Z') || ('a' ≤ c && c ≤ 'z') || c = '_'

/-- The Perl class `\d`: `[0-9]`. -/
def perlDigit (c : Char) : Bool :=
  '0' ≤ c && c ≤ '9'

/-- The pattern `validChannelNamePattern`, `^[\w\d\_][\w\d\-\_\.]*$`. -/
def validChannelNamePattern : Regex :=
  .seq (.cls (fun c => perlWord c || perlDigit c || c = '_'))
    (.star (.cls (fun c => perlWord c || perlDigit c || c = '-' || c = '_' || c = '.')))

/-- The set of names the spec describes in words: non-empty, the first
character an ASCII letter, digit or underscore, every further character an
ASCII letter, digit, underscore, dash or dot. -/
def NameInWords (name : String) : Prop :=
  ∃ c cs, name.toList = c :: cs ∧
    (c.isAlpha = true ∨ c.isDigit = true ∨ c = '_') ∧
    ∀ x ∈ cs, x.isAlpha = true ∨ x.isDigit = true ∨ x = '_' ∨ x = '-' ∨ x = '.'

/-! ## Splitting a name at dashes -/

/-- The parts `strings.Split(s, sep)` gives for a separator of one character:
the text between the separators, so one part more than there are
separators. -/
def splitAt (sep : Char) (cs : List Char) : List (List Char) :=
  match cs with
  | [] => [[]]
  | c :: rest =>
    if c = sep then [] :: splitAt sep rest
    else
      match splitAt sep rest with
      | f :: fs => (c :: f) :: fs
      | [] => [[c]]

/-- The function `channelTypeFromName` written out with `strings.Split`: the
kind is looked up from the first part if there is more than one part. -/
def channelTypeFromNameBySplit (name : String) : Int :=
  let parts := splitAt '-' name.toList
  if parts.length > 1 then
    match parts.head? with
    | some first =>
      if String.mk first = "presence" then ChannelPresence
      else if String.mk first = "private" then ChannelPrivate
      else ChannelNormal
    | none => ChannelNormal
  else ChannelNormal

/-! ## A channel that is not alive, and the endpoints -/

/-- The channel `room` marked dead while client 0 is still in the subscriber
map. -/
def deadRoomWithA : Channel :=
  { name := "room", kind := ChannelNormal,
    subscribers := [("s", ⟨some 0, false, [("sid", .str "s"), ("channel", .str "room")]⟩)],
    alive := false, mtx := false }

/-- A `net.TCPListener`, of which only whether `Close` was called is kept. -/
structure TCPListener where
  closed : Bool

/-- Modelled from the spec: the `BackendLobbyMux` type is not part of the
sources at hand. `KillAll` closes all worker connections and drops the pending
payloads of every registered lobby. -/
def killAllLobbys (lobbys : List (String × Lobby)) : List (String × Lobby) :=
  lobbys.map (fun e => (e.1, { workers := [], queue := [] }))

/-- The struct `BackendEndpoint`: the address, the lobbys by vhost path, the
listener (a pointer, nil until `ListenAndServe`), the alive flag and the
mutex. The back-reference to the context and the logger are left out. -/
structure BackendEndpoint where
  addr : String
  lobbys : List (String × Lobby)
  listener : Option TCPListener
  alive : Bool
  mtx : Bool

/-- The constructor `newBackendEndpoint`. -/
def newBackendEndpoint (addr : String) : BackendEndpoint :=
  { addr := addr, lobbys := [], listener := none, alive := false, mtx := false }

/-- The method `IsAlive` of the backend endpoint. -/
def BackendEndpoint.IsAlive (w : BackendEndpoint) : Except Fault Bool :=
  if w.mtx then .error .deadlock
  else .ok (w.alive && w.listener.isSome)

/-- The method `Kill` of the backend endpoint: under the mutex, an endpoint
that is alive and has a listener is marked not alive, its listener is closed
and its lobbys are killed. -/
def BackendEndpoint.Kill (w : BackendEndpoint) : Except Fault BackendEndpoint :=
  if w.mtx then .error .deadlock
  else
    match w.listener with
    | some l =>
      if w.alive then
        .ok { w with alive := false, listener := some { l with closed := true },
                     lobbys := killAllLobbys w.lobbys }
      else .ok w
    | none => .ok w

/-- Modelled from the spec: the websocket endpoint is not part of the sources
at hand. Of the endpoint, the address, the listener and the alive flag, with
`IsAlive` and `Kill` as for the backend endpoint: after `Kill`, `IsAlive` is
false. -/
structure WebsocketEndpoint where
  addr : String
  listener : Option TCPListener
  alive : Bool

/-- Modelled from the spec: `IsAlive` of the websocket endpoint. -/
def WebsocketEndpoint.IsAlive (w : WebsocketEndpoint) : Bool :=
  w.alive && w.listener.isSome

/-- Modelled from the spec: `Kill` of the websocket endpoint. -/
def WebsocketEndpoint.Kill (w : WebsocketEndpoint) : WebsocketEndpoint :=
  match w.listener with
  | some l => if w.alive then { w with alive := false, listener := some { l with closed := true } }
    else w
  | none => w

/-- Modelled from the spec: the fields `websocket` and `backend` of the
context, nil until the endpoint is created. -/
structure ContextEndpoints where
  websocket : Option WebsocketEndpoint
  backend : Option BackendEndpoint

/-- Modelled from the spec: `Context.Kill` terminates both endpoints and is safe
to call when endpoints were never created. -/
def ContextEndpoints.Kill (e : ContextEndpoints) : Except Fault ContextEndpoints :=
  let ws := e.websocket.map WebsocketEndpoint.Kill
  match e.backend with
  | none => .ok { websocket := ws, backend := none }
  | some b =>
    match b.Kill with
    | .error f => .error f
    | .ok b1 => .ok { websocket := ws, backend := some b1 }

/-! ## Sequences of calls with Kill -/

theorem send_id (h : Heap) (c r : ConnRef) (x : Data) : (h.send c x r).id = (h r).id := by
  unfold Heap.send; split <;> rfl

theorem send_subscriptions (h : Heap) (c r : ConnRef) (x : Data) :
    (h.send c x r).subscriptions = (h r).subscriptions := by
  unfold Heap.send; split <;> rfl

theorem send_outbox (h : Heap) (c r : ConnRef) (x : Data) :
    (h.send c x r).outbox = (h r).outbox ++ (if r = c then [x] else []) := by
  unfold Heap.send; split <;> simp

theorem sendTo_id (h : Heap) (c : Option ConnRef) (r : ConnRef) (x : Data) :
    (h.sendTo c x r).id = (h r).id := by
  cases c with
  | none => rfl
  | some c => exact send_id h c r x

theorem sendTo_subscriptions (h : Heap) (c : Option ConnRef) (r : ConnRef) (x : Data) :
    (h.sendTo c x r).subscriptions = (h r).subscriptions := by
  cases c with
  | none => rfl
  | some c => exact send_subscriptions h c r x

theorem fanOut_id (subs : List (String × Subscription)) (x : Data) (incl : Bool) (h : Heap)
    (r : ConnRef) : (fanOut subs x incl h r).id = (h r).id := by
  induction subs generalizing h with
  | nil => rfl
  | cons e rest ih =>
    obtain ⟨k, s⟩ := e
    unfold fanOut
    split
    · exact ih h
    · rw [ih, sendTo_id]

theorem fanOut_subscriptions (subs : List (String × Subscription)) (x : Data) (incl : Bool)
    (h : Heap) (r : ConnRef) :
    (fanOut subs x incl h r).subscriptions = (h r).subscriptions := by
  induction subs generalizing h with
  | nil => rfl
  | cons e rest ih =>
    obtain ⟨k, s⟩ := e
    unfold fanOut
    split
    · exact ih h
    · rw [ih, sendTo_subscriptions]

theorem fanOut_outbox (subs : List (String × Subscription)) (x : Data) (incl : Bool) (h : Heap)
    (r : ConnRef) :
    (fanOut subs x incl h r).outbox
      = (h r).outbox ++ List.replicate ((recipients subs incl).count r) x := by
  induction subs generalizing h with
  | nil => simp [fanOut, recipients]
  | cons e rest ih =>
    obtain ⟨k, s⟩ := e
    unfold fanOut recipients
    by_cases hf : (s.hidden && !incl) = true
    · rw [if_pos hf, if_pos hf, ih]
    · rw [if_neg hf, if_neg hf, ih]
      cases hc : s.client with
      | none => simp [Heap.sendTo]
      | some c =>
        simp only [Heap.sendTo]
        rw [send_outbox]
        by_cases hrc : r = c
        · subst hrc
          simp [List.replicate_succ]
        · have hcr : ¬ c = r := fun e => hrc e.symm
          simp [hrc, List.count_cons, hcr]

theorem mem_recipients (subs : List (String × Subscription)) (incl : Bool) (r : ConnRef) :
    r ∈ recipients subs incl ↔
      ∃ e ∈ subs, e.2.client = some r ∧ (incl = true ∨ e.2.hidden = false) := by
  induction subs with
  | nil => simp [recipients]
  | cons e rest ih =>
    obtain ⟨k, s⟩ := e
    unfold recipients
    by_cases hf : (s.hidden && !incl) = true
    · rw [if_pos hf, ih]
      have h1 : s.hidden = true := by simp at hf; exact hf.1
      have h2 : incl = false := by simp at hf; exact hf.2
      simp [h1, h2]
    · rw [if_neg hf]
      have h3 : incl = true ∨ s.hidden = false := by
        cases hh : s.hidden <;> cases hi : incl <;> simp [hh, hi] at hf ⊢
      cases hc : s.client with
      | none => simp [ih, hc]
      | some c =>
        simp only [List.mem_cons, ih]
        constructor
        · rintro (rfl | ⟨e, he, h⟩)
          · exact ⟨(k, s), Or.inl rfl, hc, h3⟩
          · exact ⟨e, Or.inr he, h⟩
        · rintro ⟨e, he | he, h1, h2⟩
          · subst he
            left
            simpa [hc] using h1.symm
          · exact Or.inr ⟨e, he, h1, h2⟩

theorem recipients_sublist (subs : List (String × Subscription)) (incl : Bool) :
    (recipients subs incl).Sublist (clientsOf subs) := by
  induction subs with
  | nil => simp [recipients, clientsOf]
  | cons e rest ih =>
    obtain ⟨k, s⟩ := e
    unfold recipients
    cases hc : s.client with
    | none =>
      have : clientsOf ((k, s) :: rest) = clientsOf rest := by simp [clientsOf, hc]
      rw [this]
      split <;> exact ih
    | some c =>
      have : clientsOf ((k, s) :: rest) = c :: clientsOf rest := by simp [clientsOf, hc]
      rw [this]
      split
      · exact List.Sublist.cons _ ih
      · exact List.Sublist.cons₂ _ ih

/-! ## Lemmas on the subscriber map and the channel calls -/

theorem lookupSub_insertSub (subs : List (String × Subscription)) (sid k : String)
    (s : Subscription) :
    lookupSub (insertSub subs sid s) k = if sid = k then some s else lookupSub subs k := by
  induction subs with
  | nil => simp [insertSub, lookupSub]
  | cons e rest ih =>
    obtain ⟨k', s'⟩ := e
    unfold insertSub
    by_cases h1 : k' = sid
    · subst h1
      by_cases h2 : k' = k <;> simp [lookupSub, h2]
    · rw [if_neg h1]
      by_cases h2 : k' = k
      · subst h2
        simp [lookupSub, Ne.symm h1]
      · simp [lookupSub, h2, ih]

theorem lookupSub_deleteSub (subs : List (String × Subscription)) (sid k : String) :
    lookupSub (deleteSub subs sid) k = if sid = k then none else lookupSub subs k := by
  induction subs with
  | nil => simp [deleteSub, lookupSub]
  | cons e rest ih =>
    obtain ⟨k', s'⟩ := e
    unfold deleteSub
    by_cases h1 : k' = sid
    · rw [if_pos h1, ih]
      by_cases h2 : sid = k
      · simp [h2]
      · have h3 : ¬ k' = k := fun e => h2 (h1 ▸ e)
        simp [lookupSub, h2, h3]
    · rw [if_neg h1]
      by_cases h2 : k' = k
      · subst h2
        simp [lookupSub, Ne.symm h1]
      · simp [lookupSub, h2, ih]

theorem addShortcut_id (h : Heap) (c r : ConnRef) (n : String) :
    (h.addShortcut c n r).id = (h r).id := by
  unfold Heap.addShortcut; split <;> rfl

theorem delShortcut_id (h : Heap) (c r : ConnRef) (n : String) :
    (h.delShortcut c n r).id = (h r).id := by
  unfold Heap.delShortcut; split <;> rfl

theorem subscribe_present (ch : Channel) (h : Heap) (c : ConnRef) (hidden : Bool)
    (d : Option Data) (hm : ch.mtx = false) (ha : ch.alive = true)
    (hl : (lookupSub ch.subscribers (h c).id).isSome = true) :
    ch.subscribe h (some c) hidden d = .ok (ch, h) := by
  obtain ⟨name, kind, subs, alive, mtx, pending⟩ := ch
  simp only at hm ha hl
  subst hm ha
  simp [Channel.subscribe, Channel.IsAlive, Channel.lock, hl, Channel.unlock]

theorem subscribe_new (ch : Channel) (h : Heap) (c : ConnRef) (hidden : Bool) (d : Data)
    (hm : ch.mtx = false) (ha : ch.alive = true)
    (hl : lookupSub ch.subscribers (h c).id = none) :
    ch.subscribe h (some c) hidden (some d) =
      .ok (if ch.IsPresence && !hidden then
          (withSubscriber ch c (h c).id hidden d).start
            [(":memberJoined", .obj (joinData ch (h c).id d))] true
        else withSubscriber ch c (h c).id hidden d,
        (h.send c (subscribedMsg ch)).addShortcut c ch.name) := by
  obtain ⟨name, kind, subs, alive, mtx, pending⟩ := ch
  simp only at hm ha hl
  subst hm ha
  simp only [Channel.subscribe, Channel.IsAlive, Channel.lock, Bool.false_eq_true,
    if_false, hl, Option.isSome_none, Channel.unlock, Channel.IsPresence, withSubscriber,
    subscribedMsg, joinData, Channel.Broadcast, Channel.Subscribers, Channel.start]
  cases hpr : decide (Int.land kind ChannelPresence = ChannelPresence) <;>
    cases hidden <;> simp

theorem unsubscribe_absent (ch : Channel) (h : Heap) (c : ConnRef) (d : Option Data)
    (confirm : Bool) (hm : ch.mtx = false) (ha : ch.alive = true)
    (hl : lookupSub ch.subscribers (h c).id = none) :
    ch.unsubscribe h (some c) d confirm = .ok (ch, h) := by
  obtain ⟨name, kind, subs, alive, mtx, pending⟩ := ch
  simp only at hm ha hl
  subst hm ha
  simp [Channel.unsubscribe, Channel.IsAlive, Channel.lock, hl, Channel.unlock]

theorem unsubscribe_present (ch : Channel) (h : Heap) (c : ConnRef) (d : Data)
    (confirm : Bool) (s : Subscription) (hm : ch.mtx = false) (ha : ch.alive = true)
    (hl : lookupSub ch.subscribers (h c).id = some s) :
    ch.unsubscribe h (some c) (some d) confirm =
      .ok (if ch.IsPresence && !s.hidden then
          (withoutSubscriber ch (h c).id).start
            [(":memberLeft", .obj (leftData ch (h c).id s d))] true
        else withoutSubscriber ch (h c).id,
        (if confirm then h.send c (unsubscribedMsg ch) else h).delShortcut c ch.name) := by
  obtain ⟨name, kind, subs, alive, mtx, pending⟩ := ch
  simp only at hm ha hl
  subst hm ha
  simp only [Channel.unsubscribe, Channel.IsAlive, Channel.lock, Bool.false_eq_true,
    if_false, hl, Channel.unlock, Channel.IsPresence, withoutSubscriber,
    unsubscribedMsg, leftData, Channel.Broadcast, Channel.Subscribers, Channel.start]
  cases hpr : decide (Int.land kind ChannelPresence = ChannelPresence) <;>
    cases s.hidden <;> simp

theorem broadcast_ok (ch : Channel) (h : Heap) (x : Data) (incl : Bool) (hm : ch.mtx = false) :
    ch.Broadcast h x incl = .ok (ch.start x incl, h) := by
  simp [Channel.Broadcast, Channel.Subscribers, Channel.lock, hm]

theorem ite_start_subscribers (b : Bool) (ch : Channel) (x : Data) (incl : Bool) :
    (if b = true then ch.start x incl else ch).subscribers = ch.subscribers := by
  cases b <;> rfl

theorem ite_start_mtx (b : Bool) (ch : Channel) (x : Data) (incl : Bool) :
    (if b = true then ch.start x incl else ch).mtx = ch.mtx := by
  cases b <;> rfl

theorem ite_start_alive (b : Bool) (ch : Channel) (x : Data) (incl : Bool) :
    (if b = true then ch.start x incl else ch).alive = ch.alive := by
  cases b <;> rfl

theorem ite_start_pending (b : Bool) (ch : Channel) (x : Data) (incl : Bool) :
    (if b = true then ch.start x incl else ch).pending
      = ch.pending ++ (if b = true then [(x, incl)] else []) := by
  cases b <;> simp [Channel.start]

theorem runFanOut_subscriptions (ch : Channel) (h : Heap) (i : Nat) (r : ConnRef) :
    ((ch.runFanOut h i).2 r).subscriptions = (h r).subscriptions := by
  unfold Channel.runFanOut
  split
  · rfl
  · exact fanOut_subscriptions _ _ _ _ _

theorem runFanOut_get (ch : Channel) (h : Heap) (i : Nat) (x : Data) (incl : Bool)
    (hp : ch.pending.get? i = some (x, incl)) :
    ch.runFanOut h i
      = ({ ch with pending := ch.pending.eraseIdx i }, fanOut ch.subscribers x incl h) := by
  unfold Channel.runFanOut
  rw [hp]

theorem fanOut_exactly_once (subs : List (String × Subscription)) (x : Data) (incl : Bool)
    (h : Heap) (r : ConnRef) (hd : (clientsOf subs).Nodup) :
    (fanOut subs x incl h r).outbox = (h r).outbox ++
      (if ∃ e ∈ subs, e.2.client = some r ∧ (incl = true ∨ e.2.hidden = false)
        then [x] else []) := by
  rw [fanOut_outbox]
  have hnd : (recipients subs incl).Nodup := (recipients_sublist subs incl).nodup hd
  by_cases hmem : r ∈ recipients subs incl
  · rw [List.count_eq_one_of_mem hnd hmem, if_pos ((mem_recipients _ _ _).1 hmem)]
    rfl
  · rw [List.count_eq_zero_of_not_mem hmem,
      if_neg (fun hc => hmem ((mem_recipients _ _ _).2 hc))]
    rfl

/-- `Broadcast(x, includeHidden)` sends nothing itself: it returns with the
heap as it was and one more goroutine started, and changes neither the
subscriber map nor the alive flag. -/
theorem broadcast_starts_goroutine (ch : Channel) (h : Heap) (x : Data) (includeHidden : Bool)
    (hm : ch.mtx = false) :
    ∃ ch1, ch.Broadcast h x includeHidden = .ok (ch1, h) ∧
      ch1.pending = ch.pending ++ [(x, includeHidden)] ∧
      ch1.subscribers = ch.subscribers ∧ ch1.alive = ch.alive ∧ ch1.mtx = ch.mtx :=
  ⟨_, broadcast_ok ch h x includeHidden hm, rfl, rfl, rfl, rfl⟩

/-- When the goroutine of a `Broadcast(x, includeHidden)` runs before any other
call on the channel, and the subscriptions belong to pairwise distinct clients,
`x` is appended exactly once to the outbox of every connection that is the
client of a subscription with `includeHidden` true or `hidden` false, and
nothing to any other outbox; the channel is as before the call. -/
theorem broadcast_then_goroutine (ch : Channel) (h : Heap) (x : Data) (includeHidden : Bool)
    (hm : ch.mtx = false) (hd : (clientsOf ch.subscribers).Nodup) :
    ∃ h1, run [Op.broadcast x includeHidden, Op.deliver ch.pending.length] (ch, h)
        = .ok (ch, h1) ∧
      ∀ r, (h1 r).id = (h r).id ∧ (h1 r).subscriptions = (h r).subscriptions ∧
        (h1 r).outbox = (h r).outbox ++
          (if ∃ e ∈ ch.subscribers, e.2.client = some r ∧
              (includeHidden = true ∨ e.2.hidden = false) then [x] else []) := by
  refine ⟨fanOut ch.subscribers x includeHidden h, ?_, ?_⟩
  · have hp : (ch.start x includeHidden).pending.get? ch.pending.length
        = some (x, includeHidden) := by
      simp [Channel.start]
    have he : (ch.pending ++ [(x, includeHidden)]).eraseIdx ch.pending.length = ch.pending := by
      rw [List.eraseIdx_append_of_length_le (le_refl _)]
      simp
    simp only [run, Op.apply, broadcast_ok ch h x includeHidden hm]
    rw [runFanOut_get _ _ _ _ _ hp]
    simp only [Channel.start, he]
  · intro r
    exact ⟨fanOut_id _ _ _ _ _, fanOut_subscriptions _ _ _ _ _,
      fanOut_exactly_once _ _ _ _ _ hd⟩

/-- The channel `room` with a visible subscriber, a hidden one and a
subscription without a client, the goroutine running before any other call:
without hidden subscribers only client 0 receives the payload, with them
clients 0 and 1 do. -/
theorem broadcast_then_goroutine_mixed :
    (∃ st, run [Op.broadcast [("ping", .null)] false, Op.deliver 0] (roomMixed, freshHeap)
        = .ok st ∧
      (st.2 0).outbox = [[("ping", .null)]] ∧ (st.2 1).outbox = [] ∧ (st.2 2).outbox = []) ∧
    (∃ st, run [Op.broadcast [("ping", .null)] true, Op.deliver 0] (roomMixed, freshHeap)
        = .ok st ∧
      (st.2 0).outbox = [[("ping", .null)]] ∧ (st.2 1).outbox = [[("ping", .null)]] ∧
        (st.2 2).outbox = []) :=
  ⟨⟨_, rfl, rfl, rfl, rfl⟩, ⟨_, rfl, rfl, rfl, rfl⟩⟩

/-- Claim C2 fails for the code. On the channel `room` made by `newChannel`,
clients 0 and 1 subscribe, neither of them hidden. `Broadcast(ping, false)`
returns with its goroutine started and nothing sent. If client 1 unsubscribes
before the goroutine runs, the goroutine ranges over the subscriber map as it
is by then and sends `ping` to client 0 only: client 1, a subscriber that is
not hidden and has a client when `Broadcast` is called, never receives the
payload. If instead client 2 subscribes before the goroutine runs, client 2,
no subscriber when `Broadcast` is called, receives the payload. -/
theorem broadcast_misses_subscriber_at_call :
    ∃ ch, newChannel "room" ChannelNormal = .ok ch ∧
      ∃ st, run [Op.subscribe 0 false [], Op.subscribe 1 false []] (ch, freshHeap) = .ok st ∧
        st.1.HasSubscriber st.2 (some 1) = .ok true ∧
        st.1.HasSubscriber st.2 (some 2) = .ok false ∧
        (∃ st1, run [Op.broadcast [("ping", .null)] false, Op.unsubscribe 1 [] false,
              Op.deliver 0] st = .ok st1 ∧
          st1.1.pending = [] ∧
          (st1.2 0).outbox = (st.2 0).outbox ++ [[("ping", .null)]] ∧
          (st1.2 1).outbox = (st.2 1).outbox) ∧
        (∃ st2, run [Op.broadcast [("ping", .null)] false, Op.subscribe 2 false [],
              Op.deliver 0] st = .ok st2 ∧
          st2.1.pending = [] ∧
          (st2.2 2).outbox.getLast? = some [("ping", .null)]) :=
  ⟨_, rfl, _, rfl, rfl, rfl, ⟨_, rfl, rfl, rfl, rfl⟩, ⟨_, rfl, rfl, rfl⟩⟩

/-! ## HasSubscriber along a sequence of calls -/

theorem killLoop_deadlock (entries : List (String × Subscription)) (ch : Channel) (h : Heap)
    (hm : ch.mtx = true) (hsub : ∀ e ∈ entries, (lookupSub ch.subscribers e.1).isSome = true)
    (hex : ∃ e ∈ entries, e.2.client ≠ none) :
    killLoop entries ch h = .error .deadlock := by
  induction entries with
  | nil => simp at hex
  | cons e rest ih =>
    obtain ⟨sid, s⟩ := e
    unfold killLoop
    rw [if_pos (hsub (sid, s) (List.mem_cons_self _ _))]
    cases hc : s.client with
    | some c => simp [Channel.unsubscribe, Channel.IsAlive, Channel.lock, hm]
    | none =>
      simp only [Channel.unsubscribe]
      apply ih (fun e he => hsub e (List.mem_cons_of_mem _ he))
      obtain ⟨e, he, hne⟩ := hex
      rcases List.mem_cons.1 he with rfl | he
      · exact absurd hc hne
      · exact ⟨e, he, hne⟩

theorem lookupSub_isSome_of_mem (subs : List (String × Subscription)) (e : String × Subscription)
    (he : e ∈ subs) : (lookupSub subs e.1).isSome = true := by
  induction subs with
  | nil => simp at he
  | cons x rest ih =>
    obtain ⟨k, s⟩ := x
    unfold lookupSub
    by_cases hk : k = e.1
    · simp [hk]
    · rw [if_neg hk]
      rcases List.mem_cons.1 he with rfl | he
      · exact absurd rfl hk
      · exact ih he

/-- `Kill` on an alive channel that has a subscription with a client never
returns: `unsubscribe` asks `IsAlive`, which locks the mutex `Kill` holds. -/
theorem kill_deadlocks (ch : Channel) (h : Heap) (hm : ch.mtx = false) (ha : ch.alive = true)
    (hex : ∃ e ∈ ch.subscribers, e.2.client ≠ none) : ch.Kill h = .error .deadlock := by
  unfold Channel.Kill Channel.lock
  simp only [hm, Bool.false_eq_true, if_false, ha, if_true]
  rw [killLoop_deadlock ch.subscribers
    { name := ch.name, kind := ch.kind, subscribers := ch.subscribers, alive := false, mtx := true,
      pending := ch.pending }
    h rfl (fun e he => lookupSub_isSome_of_mem ch.subscribers e he) hex]

/-- Claim C4 at the channel `room` with the one subscriber client 0: `Kill`
does not return, so no subscriber is removed. -/
theorem kill_with_subscriber_does_not_return :
    ∃ ch, newChannel "room" ChannelNormal = .ok ch ∧
      ∃ st, run [Op.subscribe 0 false []] (ch, freshHeap) = .ok st ∧
        st.1.HasSubscriber st.2 (some 0) = .ok true ∧
        st.1.Kill st.2 = .error .deadlock :=
  ⟨_, rfl, _, rfl, rfl, rfl⟩

/-! ## Presence messages -/

theorem get_set (m : Data) (k k1 : String) (v : Value) :
    (m.set k v).get k1 = if k = k1 then some v else m.get k1 := by
  induction m with
  | nil => simp [Data.set, Data.get]
  | cons e rest ih =>
    obtain ⟨k2, v2⟩ := e
    unfold Data.set
    by_cases h1 : k2 = k
    · subst h1
      by_cases h2 : k2 = k1 <;> simp [Data.get, h2]
    · rw [if_neg h1]
      by_cases h2 : k2 = k1
      · subst h2
        simp [Data.get, Ne.symm h1]
      · simp [Data.get, h2, ih]

theorem get_merge (dst src : Data) (k : String) :
    (dst.merge src).get k = (src.get k).orElse (fun _ => dst.get k) := by
  induction src with
  | nil => simp [Data.merge, Data.get]
  | cons e rest ih =>
    obtain ⟨k2, v2⟩ := e
    have hm : Data.merge dst ((k2, v2) :: rest) = (Data.merge dst rest).set k2 v2 := rfl
    rw [hm, get_set]
    by_cases h1 : k2 = k
    · simp [Data.get, h1]
    · simp [Data.get, h1, ih]

theorem mem_clientsOf (subs : List (String × Subscription)) (r : ConnRef) :
    r ∈ clientsOf subs ↔ ∃ e ∈ subs, e.2.client = some r := by
  simp [clientsOf, List.mem_filterMap]

theorem addShortcut_outbox (h : Heap) (c r : ConnRef) (n : String) :
    (h.addShortcut c n r).outbox = (h r).outbox := by
  unfold Heap.addShortcut; split <;> rfl

theorem delShortcut_outbox (h : Heap) (c r : ConnRef) (n : String) :
    (h.delShortcut c n r).outbox = (h r).outbox := by
  unfold Heap.delShortcut; split <;> rfl

/-- On an alive channel, a `subscribe(client, hidden, data)` of a client that
is not yet subscribed returns; the new subscription stores the caller's data
with `sid` set to the session id and `channel` to the channel name; the call
itself sends the `:subscribed` confirmation to the client and nothing else;
and it starts exactly one goroutine, a fan-out to hidden and other subscribers
alike of the `:memberJoined` carrying that stored metadata, if the channel is
a presence channel and `hidden` is false, and none otherwise. -/
theorem subscribe_starts_memberJoined (ch : Channel) (h : Heap) (c : ConnRef) (hidden : Bool)
    (d : Data) (hm : ch.mtx = false) (ha : ch.alive = true)
    (hl : lookupSub ch.subscribers (h c).id = none) :
    ∃ (ch1 : Channel) (h1 : Heap) (meta : Data),
      ch.subscribe h (some c) hidden (some d) = .ok (ch1, h1) ∧
      lookupSub ch1.subscribers (h c).id = some ⟨some c, hidden, meta⟩ ∧
      meta.get "sid" = some (.str (h c).id) ∧
      meta.get "channel" = some (.str ch.name) ∧
      (∀ k, k ≠ "sid" → k ≠ "channel" → meta.get k = d.get k) ∧
      (∀ r, (h1 r).outbox = (h r).outbox ++ (if r = c then [subscribedMsg ch] else [])) ∧
      ch1.pending = ch.pending ++
        (if (ch.IsPresence && !hidden) = true then [([(":memberJoined", .obj meta)], true)]
          else []) := by
  refine ⟨_, _, joinData ch (h c).id d, subscribe_new ch h c hidden d hm ha hl,
    ?_, ?_, ?_, ?_, ?_, ?_⟩
  · rw [ite_start_subscribers]
    simp [withSubscriber, lookupSub_insertSub, newSubscription]
  · simp [joinData, get_set]
  · simp [joinData, get_set]
  · intro k h1 h2
    simp [joinData, get_set, Ne.symm h1, Ne.symm h2]
  · intro r
    rw [addShortcut_outbox, send_outbox]
  · rw [ite_start_pending]
    rfl

/-- Claim C6 fails for the code. In `presence-lobby`, made by `newChannel`, A
(client 0) is subscribed. When B (client 1) subscribes with `{name: "B"}` and
the goroutine of the `:memberJoined` runs at once, A receives the
`:memberJoined` carrying `{name: "B", sid: B.sid, channel: "presence-lobby"}`.
When A unsubscribes before that goroutine runs, the goroutine ranges over the
subscriber map as it is by then: A, a subscriber of the channel when B
subscribed, never receives the `:memberJoined`. And when B itself unsubscribes
before that goroutine runs, B, the new subscriber, receives the `:subscribed`
confirmation and never the `:memberJoined`. -/
theorem memberJoined_misses_subscriber :
    ∃ ch, newChannel "presence-lobby" ChannelPresence = .ok ch ∧
      ∃ st, run [Op.subscribe 0 false [("name", .str "A")], Op.deliver 0] (ch, freshHeap)
          = .ok st ∧
        st.1.pending = [] ∧
        st.1.HasSubscriber st.2 (some 0) = .ok true ∧
        (∃ st1, run [Op.subscribe 1 false [("name", .str "B")], Op.deliver 0] st = .ok st1 ∧
          (st1.2 0).outbox = (st.2 0).outbox ++ [[(":memberJoined", .obj
            [("name", .str "B"), ("sid", .str "ss"), ("channel", .str "presence-lobby")])]]) ∧
        (∃ st2, run [Op.subscribe 1 false [("name", .str "B")], Op.unsubscribe 0 [] false,
              Op.deliver 0, Op.deliver 0] st = .ok st2 ∧
          st2.1.pending = [] ∧
          (st2.2 0).outbox = (st.2 0).outbox) ∧
        (∃ st3, run [Op.subscribe 1 false [("name", .str "B")], Op.unsubscribe 1 [] false,
              Op.deliver 0, Op.deliver 0] st = .ok st3 ∧
          st3.1.pending = [] ∧
          (st3.2 1).outbox = [[(":subscribed", .obj
            [("channel", .str "presence-lobby"),
             ("subscribers", .arr [.obj
               [("name", .str "A"), ("sid", .str "s"), ("channel", .str "presence-lobby")]])])]]) :=
  ⟨_, rfl, _, rfl, rfl, rfl, ⟨_, rfl, rfl⟩, ⟨_, rfl, rfl, rfl⟩, ⟨_, rfl, rfl, rfl⟩⟩

/-- On an alive channel, `unsubscribe(client, data, confirm)` of a subscribed
client returns and deletes the subscription; the call itself sends
`:unsubscribed {channel: name}` to the client exactly if `confirm`, and
nothing else; and it starts exactly one goroutine, a fan-out of `:memberLeft`
to hidden and other subscribers alike, if the channel is a presence channel
and the deleted subscription was not hidden, and none otherwise. The payload
has `sid` the session id, `channel` the channel name, and under every other
key the stored value if the stored metadata has the key and the caller's value
otherwise; when the stored metadata records this session id and channel name,
as `subscribe` writes them, every stored key carries its stored value. -/
theorem unsubscribe_starts_memberLeft (ch : Channel) (h : Heap) (c : ConnRef) (d : Data)
    (confirm : Bool) (s : Subscription) (hm : ch.mtx = false) (ha : ch.alive = true)
    (hl : lookupSub ch.subscribers (h c).id = some s) :
    ∃ (ch1 : Channel) (h1 : Heap) (payload : Data),
      ch.unsubscribe h (some c) (some d) confirm = .ok (ch1, h1) ∧
      ch1.subscribers = deleteSub ch.subscribers (h c).id ∧
      lookupSub ch1.subscribers (h c).id = none ∧
      payload.get "sid" = some (.str (h c).id) ∧
      payload.get "channel" = some (.str ch.name) ∧
      (∀ k, k ≠ "sid" → k ≠ "channel" →
        payload.get k = (s.data.get k).orElse (fun _ => d.get k)) ∧
      (s.data.get "sid" = some (.str (h c).id) → s.data.get "channel" = some (.str ch.name) →
        ∀ k v, s.data.get k = some v → payload.get k = some v) ∧
      (∀ r, (h1 r).outbox = (h r).outbox ++
          (if r = c ∧ confirm = true then [unsubscribedMsg ch] else [])) ∧
      ch1.pending = ch.pending ++
        (if (ch.IsPresence && !s.hidden) = true then [([(":memberLeft", .obj payload)], true)]
          else []) := by
  have hother : ∀ k, k ≠ "sid" → k ≠ "channel" →
      (leftData ch (h c).id s d).get k = (s.data.get k).orElse (fun _ => d.get k) := by
    intro k h1 h2
    simp [leftData, get_set, get_merge, Ne.symm h1, Ne.symm h2]
  refine ⟨_, _, leftData ch (h c).id s d, unsubscribe_present ch h c d confirm s hm ha hl,
    ?_, ?_, ?_, ?_, hother, ?_, ?_, ?_⟩
  · rw [ite_start_subscribers]
    rfl
  · rw [ite_start_subscribers]
    simp [withoutSubscriber, lookupSub_deleteSub]
  · simp [leftData, get_set]
  · simp [leftData, get_set]
  · intro hs hc k v hk
    by_cases h1 : k = "sid"
    · subst h1
      rw [hs] at hk
      rw [← hk]
      simp [leftData, get_set]
    · by_cases h2 : k = "channel"
      · subst h2
        rw [hc] at hk
        rw [← hk]
        simp [leftData, get_set]
      · rw [hother k h1 h2, hk]
        rfl
  · intro r
    rw [delShortcut_outbox]
    cases confirm
    · simp
    · simp [send_outbox]
  · rw [ite_start_pending]
    rfl

/-- Claim C7 fails for the code. In `presence-lobby`, made by `newChannel`, A
(client 0) and B (client 1) are subscribed. When B leaves by a disconnect, that
is with empty data and without confirmation, and the goroutine of the
`:memberLeft` runs at once, A receives `:memberLeft` with B's metadata and B
receives nothing. When A unsubscribes before that goroutine runs, the
goroutine ranges over the subscriber map as it is by then: A, a remaining
subscriber when B left, never receives the `:memberLeft`. -/
theorem memberLeft_misses_remaining_subscriber :
    ∃ ch, newChannel "presence-lobby" ChannelPresence = .ok ch ∧
      ∃ st, run [Op.subscribe 0 false [("name", .str "A")], Op.deliver 0,
            Op.subscribe 1 false [("name", .str "B")], Op.deliver 0] (ch, freshHeap) = .ok st ∧
        st.1.pending = [] ∧
        st.1.HasSubscriber st.2 (some 0) = .ok true ∧
        st.1.HasSubscriber st.2 (some 1) = .ok true ∧
        (∃ st1, run [Op.unsubscribe 1 [] false, Op.deliver 0] st = .ok st1 ∧
          (st1.2 0).outbox = (st.2 0).outbox ++ [[(":memberLeft", .obj
            [("channel", .str "presence-lobby"), ("sid", .str "ss"), ("name", .str "B")])]] ∧
          (st1.2 1).outbox = (st.2 1).outbox) ∧
        (∃ st2, run [Op.unsubscribe 1 [] false, Op.unsubscribe 0 [] false,
              Op.deliver 0, Op.deliver 0] st = .ok st2 ∧
          st2.1.pending = [] ∧
          (st2.2 0).outbox = (st.2 0).outbox) :=
  ⟨_, rfl, _, rfl, rfl, rfl, rfl, ⟨_, rfl, rfl, rfl⟩, ⟨_, rfl, rfl, rfl⟩⟩

/-- Claim C8 at the channel `presence-lobby` with the hidden subscriber H
(client 0): the `:subscribed` confirmation sent to the joining client A (client
1) lists the metadata of H. -/
theorem subscribed_snapshot_lists_hidden :
    ∃ ch, newChannel "presence-lobby" ChannelPresence = .ok ch ∧
      ∃ st, run [Op.subscribe 0 true [("name", .str "H")]] (ch, freshHeap) = .ok st ∧
        lookupSub st.1.subscribers "s" = some ⟨some 0, true,
          [("name", .str "H"), ("sid", .str "s"), ("channel", .str "presence-lobby")]⟩ ∧
        ∃ st1, st.1.subscribe st.2 (some 1) false (some [("name", .str "A")]) = .ok st1 ∧
          (st1.2 1).outbox.head? = some [(":subscribed", .obj
            [("channel", .str "presence-lobby"),
             ("subscribers", .arr [.obj
               [("name", .str "H"), ("sid", .str "s"), ("channel", .str "presence-lobby")]])])] :=
  ⟨_, rfl, _, rfl, rfl, _, rfl, rfl⟩

open BackendEndpoint

/-! ## The subscriber map in the states that can be reached -/

theorem lookupSub_none_iff (subs : List (String × Subscription)) (k : String) :
    lookupSub subs k = none ↔ k ∉ subs.map Prod.fst := by
  induction subs with
  | nil => simp [lookupSub]
  | cons e rest ih =>
    obtain ⟨k1, s1⟩ := e
    unfold lookupSub
    by_cases h1 : k1 = k
    · simp [h1]
    · rw [if_neg h1, ih]
      simp [Ne.symm h1]

theorem WellFormed.not_client {h0 : Heap} {ch : Channel} (w : WellFormed h0 ch) (c : ConnRef)
    (hl : lookupSub ch.subscribers (h0 c).id = none) : c ∉ clientsOf ch.subscribers := by
  intro hmem
  obtain ⟨x, hx, hxc⟩ := (mem_clientsOf _ c).1 hmem
  obtain ⟨c1, hc1, hid1⟩ := w.owner x hx
  rw [hxc] at hc1
  injection hc1 with hc1
  subst hc1
  exact (lookupSub_none_iff _ _).1 hl (hid1 ▸ List.mem_map_of_mem Prod.fst hx)

theorem authenticate_ok_result (parse : String → Option backendIdentity) (ctx : Context)
    (raw : String) (hok : (authenticate parse ctx raw).2.2 = true) :
    ∃ idty vhost, parse raw = some idty ∧ ctx.Vhost idty.Vhost = some vhost ∧
      idty.AccessToken = vhost.accessToken ∧
      authenticate parse ctx raw = (some vhost, some idty, true) := by
  cases hp : parse raw with
  | none => simp [authenticate, hp] at hok
  | some idty =>
    cases hv : ctx.Vhost idty.Vhost with
    | none => simp [authenticate, hp, hv] at hok
    | some vhost =>
      by_cases ht : vhost.accessToken = idty.AccessToken
      · exact ⟨idty, vhost, rfl, hv, ht.symm, by simp [authenticate, hp, hv, ht]⟩
      · simp [authenticate, hp, hv, ht] at hok

theorem authenticate_ok_iff (parse : String → Option backendIdentity) (ctx : Context)
    (raw : String) :
    (authenticate parse ctx raw).2.2 = true ↔
      ∃ idty vhost, parse raw = some idty ∧ ctx.Vhost idty.Vhost = some vhost ∧
        idty.AccessToken = vhost.accessToken := by
  constructor
  · intro hok
    obtain ⟨idty, vhost, h1, h2, h3, _⟩ := authenticate_ok_result parse ctx raw hok
    exact ⟨idty, vhost, h1, h2, h3⟩
  · rintro ⟨idty, vhost, h1, h2, h3⟩
    simp [authenticate, h1, h2, h3]

theorem handle_unauthorized (parse : String → Option backendIdentity)
    (json : String → Unmarshaled) (newToken : String → String → Option String)
    (ctx : Context) (heap : Heap) (req : backendRequest)
    (hno : (authenticate parse ctx req.Identity).2.2 = false) :
    handle parse json newToken ctx heap (some req) =
      .ok ⟨⟨"Unauthorized", 402⟩, [["ER", "402"]],
        [⟨match (authenticate parse ctx req.Identity).1 with
            | some v => v.path
            | none => "???", ⟨"Unauthorized", 402⟩, some req⟩], ctx, heap⟩ := by
  simp only [handle, hno, Bool.not_false, if_true, logStatus]
  rfl

/-- Claim C1. `authenticate(raw)` returns ok exactly if `raw` parses as an
identity, the parsed vhost path exists in the context and the parsed access
token equals that vhost's; when ok, the vhost returned is the one registered
under the parsed path; and for a received request whose identity is not
approved, `handle` ends with 402 Unauthorized whatever the command and payload
are, with the context (every vhost, channel, permission and lobby) and every
connection as before: nothing is dispatched. -/
theorem authenticate_gates_dispatch (parse : String → Option backendIdentity)
    (json : String → Unmarshaled) (newToken : String → String → Option String)
    (ctx : Context) (heap : Heap) (req : backendRequest) :
    ((authenticate parse ctx req.Identity).2.2 = true ↔
      ∃ idty vhost, parse req.Identity = some idty ∧ ctx.Vhost idty.Vhost = some vhost ∧
        idty.AccessToken = vhost.accessToken) ∧
    ((authenticate parse ctx req.Identity).2.2 = true →
      ∃ idty vhost, parse req.Identity = some idty ∧ ctx.Vhost idty.Vhost = some vhost ∧
        authenticate parse ctx req.Identity = (some vhost, some idty, true)) ∧
    ((authenticate parse ctx req.Identity).2.2 = false →
      ∃ res, handle parse json newToken ctx heap (some req) = .ok res ∧
        res.status = ⟨"Unauthorized", 402⟩ ∧ res.ctx = ctx ∧ res.heap = heap) := by
  refine ⟨authenticate_ok_iff parse ctx req.Identity, ?_, ?_⟩
  · intro hok
    obtain ⟨idty, vhost, h1, h2, _, h4⟩ := authenticate_ok_result parse ctx req.Identity hok
    exact ⟨idty, vhost, h1, h2, h4⟩
  · intro hno
    exact ⟨_, handle_unauthorized parse json newToken ctx heap req hno, rfl, rfl, rfl⟩

/-! ## Rejection of an identity -/

/-- Claim C10, as stated, fails: for the REQ request on `/demo` whose access
token is not the vhost's, `handle` ends with 402 and the peer is sent the reply
`ER 402`. -/
theorem unauthorized_reply_counterexample :
    ∃ res, handle parseBackendIdentity scenarioUnmarshal scenarioToken demoContext freshHeap
        (some ⟨reqIdentity (String.mk (List.replicate 40 'U')), "BC", ["room", "hello", "null"]⟩)
        = .ok res ∧
      res.status = ⟨"Unauthorized", 402⟩ ∧ res.sent = [["ER", "402"]] :=
  ⟨_, rfl, rfl, rfl⟩

/-- Claim C10, amended. For a received request whose identity parses but names
an unknown vhost or carries an access token different from the vhost's,
`handle` ends with status 402 Unauthorized, logs it (under the vhost's path, or
`???` for an unknown vhost), sends the peer the single reply `ER 402`, and
leaves the context and the connections unchanged. -/
theorem unauthorized_replies_er (parse : String → Option backendIdentity)
    (json : String → Unmarshaled) (newToken : String → String → Option String)
    (ctx : Context) (heap : Heap) (req : backendRequest) (idty : backendIdentity)
    (hp : parse req.Identity = some idty)
    (hbad : ctx.Vhost idty.Vhost = none ∨
      ∃ v, ctx.Vhost idty.Vhost = some v ∧ v.accessToken ≠ idty.AccessToken) :
    ∃ res path, handle parse json newToken ctx heap (some req) = .ok res ∧
      res.status = ⟨"Unauthorized", 402⟩ ∧
      res.log = [⟨path, ⟨"Unauthorized", 402⟩, some req⟩] ∧
      (path = match ctx.Vhost idty.Vhost with
        | some v => v.path
        | none => "???") ∧
      res.sent = [["ER", "402"]] ∧ res.ctx = ctx ∧ res.heap = heap := by
  have hno : (authenticate parse ctx req.Identity).2.2 = false := by
    rcases hbad with hv | ⟨v, hv, ht⟩
    · simp [authenticate, hp, hv]
    · simp [authenticate, hp, hv, ht]
  have h1 : (authenticate parse ctx req.Identity).1 = ctx.Vhost idty.Vhost := by
    rcases hbad with hv | ⟨v, hv, ht⟩
    · simp [authenticate, hp, hv]
    · simp [authenticate, hp, hv, ht]
  refine ⟨_, _, handle_unauthorized parse json newToken ctx heap req hno, rfl, rfl, ?_, rfl, rfl, rfl⟩
  rw [h1]

/-- Claim C10, amended, at the REQ request on `/demo` with the access token
`UU...U`, which is not the vhost's. -/
theorem unauthorized_replies_er_witness :
    (parseBackendIdentity (reqIdentity (String.mk (List.replicate 40 'U')))
        = some ⟨"req", "/demo", String.mk (List.replicate 40 'U'),
            "12345678-90ab-cdef-0123-1234567890ab"⟩ ∧
      (demoContext.Vhost "/demo" = none ∨
        ∃ v, demoContext.Vhost "/demo" = some v ∧
          v.accessToken ≠ String.mk (List.replicate 40 'U'))) ∧
    ∃ res path, handle parseBackendIdentity scenarioUnmarshal scenarioToken demoContext freshHeap
        (some ⟨reqIdentity (String.mk (List.replicate 40 'U')), "BC", ["room", "hello", "null"]⟩)
        = .ok res ∧
      res.status = ⟨"Unauthorized", 402⟩ ∧
      res.log = [⟨path, ⟨"Unauthorized", 402⟩,
        some ⟨reqIdentity (String.mk (List.replicate 40 'U')), "BC", ["room", "hello", "null"]⟩⟩] ∧
      (path = match demoContext.Vhost "/demo" with
        | some v => v.path
        | none => "???") ∧
      res.sent = [["ER", "402"]] ∧ res.ctx = demoContext ∧ res.heap = freshHeap :=
  ⟨⟨rfl, Or.inr ⟨demoVhost, rfl, by decide⟩⟩,
    unauthorized_replies_er parseBackendIdentity scenarioUnmarshal scenarioToken demoContext
      freshHeap ⟨reqIdentity (String.mk (List.replicate 40 'U')), "BC", ["room", "hello", "null"]⟩
      ⟨"req", "/demo", String.mk (List.replicate 40 'U'), "12345678-90ab-cdef-0123-1234567890ab"⟩
      rfl (Or.inr ⟨demoVhost, rfl, by decide⟩)⟩

/-! ## The broadcast request -/

theorem handleReqBroadcast_short (json : String → Unmarshaled) (vhost : Vhost) (heap : Heap)
    (req : backendRequest) (hbad : req.Len < 3) :
    handleReqBroadcast json vhost heap req = .ok ⟨⟨"Bad request", 400⟩, [], vhost, heap⟩ := by
  unfold handleReqBroadcast
  rw [if_pos hbad]

theorem handleReqBroadcast_empty (json : String → Unmarshaled) (vhost : Vhost) (heap : Heap)
    (identity command chan event body : String) (rest : List String)
    (hbad : chan = "" ∨ event = "") :
    handleReqBroadcast json vhost heap ⟨identity, command, chan :: event :: body :: rest⟩
      = .ok ⟨⟨"Bad request", 400⟩, [], vhost, heap⟩ := by
  unfold handleReqBroadcast
  have h3 : ¬ (backendRequest.Len ⟨identity, command, chan :: event :: body :: rest⟩ < 3) := by
    simp [backendRequest.Len]
  rw [if_neg h3]
  exact if_pos hbad

theorem handleReqBroadcast_missing (json : String → Unmarshaled) (vhost : Vhost) (heap : Heap)
    (identity command chan event body : String) (rest : List String)
    (hc : chan ≠ "") (he : event ≠ "") (hv : vhost.Channel chan = none) :
    handleReqBroadcast json vhost heap ⟨identity, command, chan :: event :: body :: rest⟩
      = .ok ⟨⟨"Channel not found", 454⟩, [], vhost, heap⟩ := by
  unfold handleReqBroadcast
  have h3 : ¬ (backendRequest.Len ⟨identity, command, chan :: event :: body :: rest⟩ < 3) := by
    simp [backendRequest.Len]
  have h4 : ¬ (chan = "" ∨ event = "") := by tauto
  rw [if_neg h3]
  simp only [List.getD_cons_zero, List.getD_cons_succ]
  rw [if_neg h4, hv]

theorem handleReqBroadcast_found (json : String → Unmarshaled) (vhost : Vhost) (heap : Heap)
    (identity command chan event body : String) (rest : List String) (channel : Channel)
    (d : Data) (hc : chan ≠ "") (he : event ≠ "")
    (hv : vhost.Channel chan = some channel) (hm : channel.mtx = false)
    (hb : bodyOf (json body) = some d) :
    handleReqBroadcast json vhost heap ⟨identity, command, chan :: event :: body :: rest⟩
      = .ok ⟨⟨"Broadcasted", 204⟩, [["OK"]],
          vhost.putChannel
            (channel.start [(event, .obj (d.set "channel" (.str chan)))] false), heap⟩ := by
  unfold handleReqBroadcast
  have h3 : ¬ (backendRequest.Len ⟨identity, command, chan :: event :: body :: rest⟩ < 3) := by
    simp [backendRequest.Len]
  have h4 : ¬ (chan = "" ∨ event = "") := by tauto
  rw [if_neg h3]
  simp only [List.getD_cons_zero, List.getD_cons_succ]
  rw [if_neg h4, hv]
  cases hj : json body with
  | failed =>
    rw [hj] at hb
    injection hb with hb
    subst hb
    simp only [broadcast_ok _ _ _ _ hm]
  | null =>
    rw [hj] at hb
    cases hb
  | object m =>
    rw [hj] at hb
    injection hb with hb
    subst hb
    simp only [broadcast_ok _ _ _ _ hm]

/-- Claim C5 at a body frame that is the JSON literal `null`: with a decoder
that, like `json.Unmarshal`, reports no error for `null` and leaves the map
nil, a `BC` request for an existing channel with non-empty channel and event
frames does not return a status: the assignment of the `channel` key faults. -/
theorem broadcast_null_body_faults (json : String → Unmarshaled) (vhost : Vhost) (heap : Heap)
    (identity chan event : String) (rest : List String) (channel : Channel)
    (hnull : json "null" = .null) (hc : chan ≠ "") (he : event ≠ "")
    (hv : vhost.Channel chan = some channel) :
    handleReqBroadcast json vhost heap ⟨identity, "BC", chan :: event :: "null" :: rest⟩
      = .error .nilMapWrite := by
  unfold handleReqBroadcast
  have h3 : ¬ (backendRequest.Len ⟨identity, "BC", chan :: event :: "null" :: rest⟩ < 3) := by
    simp [backendRequest.Len]
  have h4 : ¬ (chan = "" ∨ event = "") := by tauto
  rw [if_neg h3]
  simp only [List.getD_cons_zero, List.getD_cons_succ]
  rw [if_neg h4, hv, hnull]

/-- Claim C5 at the request `BC room hello null` on the vhost `/demo`. -/
theorem broadcast_null_body_faults_witness :
    (scenarioUnmarshal "null" = .null ∧ "room" ≠ "" ∧ "hello" ≠ "" ∧
      demoVhost.Channel "room" = some roomWithAB) ∧
    handleReqBroadcast scenarioUnmarshal demoVhost freshHeap
        ⟨reqIdentity demoToken, "BC", "room" :: "hello" :: "null" :: []⟩
      = .error .nilMapWrite :=
  ⟨⟨rfl, by decide, by decide, rfl⟩,
    broadcast_null_body_faults scenarioUnmarshal demoVhost freshHeap (reqIdentity demoToken)
      "room" "hello" [] roomWithAB rfl (by decide) (by decide) rfl⟩

/-- Scenario 1 of the spec: `BC room hello {"x":1}` is answered 204 with the
reply `OK`; the handler has started the goroutine of the broadcast and sent
nothing yet; when the goroutine runs before any other call on the channel, A
and B both receive `{"hello":{"x":1,"channel":"room"}}`. -/
theorem broadcast_scenario :
    ∃ r, handleReqBroadcast scenarioUnmarshal demoVhost freshHeap
        ⟨reqIdentity demoToken, "BC", ["room", "hello", "\x7b\"x\":1\x7d"]⟩ = .ok r ∧
      r.status = ⟨"Broadcasted", 204⟩ ∧ r.replies = [["OK"]] ∧
      (r.heap 0).outbox = [] ∧ (r.heap 1).outbox = [] ∧
      ∃ ch, r.vhost.Channel "room" = some ch ∧
        ch.pending = [([("hello", .obj [("x", .num 1), ("channel", .str "room")])], false)] ∧
        ((ch.runFanOut r.heap 0).2 0).outbox
          = [[("hello", .obj [("x", .num 1), ("channel", .str "room")])]] ∧
        ((ch.runFanOut r.heap 0).2 1).outbox
          = [[("hello", .obj [("x", .num 1), ("channel", .str "room")])]] :=
  ⟨_, rfl, rfl, rfl, rfl, rfl, _, rfl, rfl, rfl, rfl⟩

/-! ## The shape of the replies on a REQ socket -/

theorem handleReqBroadcast_shape (json : String → Unmarshaled) (vhost : Vhost) (heap : Heap)
    (req : backendRequest) (r : Handled) (hc : req.Command ≠ "AT")
    (newToken : String → String → Option String)
    (h : handleReqBroadcast json vhost heap req = .ok r) : ReplyShape newToken vhost req r := by
  unfold handleReqBroadcast at h
  split at h
  · injection h with h; subst h; left; simp
  · simp only [] at h
    split at h
    · injection h with h; subst h; left; simp
    · split at h
      · injection h with h; subst h; left; simp
      · split at h
        · cases h
        · split at h
          · cases h
          · injection h with h; subst h; right; left; exact ⟨hc, rfl, by simp⟩

theorem handleReqOpenChannel_shape (vhost : Vhost) (heap : Heap) (req : backendRequest)
    (hc : req.Command ≠ "AT") (newToken : String → String → Option String) :
    ReplyShape newToken vhost req (handleReqOpenChannel vhost heap req) := by
  unfold handleReqOpenChannel
  split
  · left; simp
  · simp only []
    split
    · left; simp
    · split
      · right; left; exact ⟨hc, rfl, by simp⟩
      · split
        · left; simp
        · right; left; exact ⟨hc, rfl, by simp⟩

theorem handleReqCloseChannel_shape (vhost : Vhost) (heap : Heap) (req : backendRequest)
    (hc : req.Command ≠ "AT") (newToken : String → String → Option String) :
    ReplyShape newToken vhost req (handleReqCloseChannel vhost heap req) := by
  unfold handleReqCloseChannel
  split
  · left; simp
  · simp only []
    split
    · left; simp
    · split
      · left; simp
      · right; left; exact ⟨hc, rfl, by simp⟩

theorem handleReqSingleAccessTokenRequest_shape (newToken : String → String → Option String)
    (vhost : Vhost) (heap : Heap) (req : backendRequest) (hc : req.Command = "AT") :
    ReplyShape newToken vhost req
      (handleReqSingleAccessTokenRequest newToken vhost heap req) := by
  unfold handleReqSingleAccessTokenRequest
  split
  · left; simp
  · simp only []
    split
    · left; simp
    · split
      · left; simp
      · rename_i hne
        right; right
        exact ⟨hc, by simp, _, rfl, hne, rfl⟩

theorem dispatchReq_shape (json : String → Unmarshaled)
    (newToken : String → String → Option String) (vhost : Vhost) (heap : Heap)
    (req : backendRequest) (r : Handled)
    (h : dispatchReq json newToken vhost heap req = .ok r) :
    ReplyShape newToken vhost req r := by
  unfold dispatchReq at h
  split at h
  · rename_i hc
    exact handleReqBroadcast_shape json vhost heap req r (by rw [hc]; decide) newToken h
  · split at h
    · rename_i hc
      injection h with h; subst h
      exact handleReqOpenChannel_shape vhost heap req (by rw [hc]; decide) newToken
    · split at h
      · rename_i hc
        injection h with h; subst h
        exact handleReqCloseChannel_shape vhost heap req (by rw [hc]; decide) newToken
      · split at h
        · rename_i hc
          injection h with h; subst h
          exact handleReqSingleAccessTokenRequest_shape newToken vhost heap req hc
        · injection h with h; subst h; left; simp

/-- Claim C9, as stated, fails: the authenticated REQ request `AT joe .*` on
`/demo` ends with the success status 270, and the reply sent to the peer is
the two frames `AT` and the token, so its first frame is not `OK`. -/
theorem at_reply_counterexample :
    ∃ res, handle parseBackendIdentity scenarioUnmarshal scenarioToken demoContext freshHeap
        (some ⟨reqIdentity demoToken, "AT", ["joe", ".*"]⟩) = .ok res ∧
      res.status = ⟨"Single access token generated", 270⟩ ∧
      res.sent = [["AT", String.mk (List.replicate 128 'k')]] :=
  ⟨_, rfl, rfl, rfl⟩

/-- Claim C9, amended. For an authenticated request on a REQ socket and every
verb, when `handle` returns, its status is the one `dispatchReq` returned and
is below 300 or at least 400; with a status below 300 the peer is sent exactly
one reply, the single frame `OK`, or for the verb `AT` the two frames `AT` and
the generated token, which is the string that `GenerateSingleAccessToken` of
the vhost returned for the first two frames of the request and is not empty;
with a status of 400 or more the peer is sent exactly one reply, the two
frames `ER` and the decimal status code. -/
theorem req_reply_shape (parse : String → Option backendIdentity)
    (json : String → Unmarshaled) (newToken : String → String → Option String)
    (ctx : Context) (heap : Heap) (req : backendRequest) (vhost : Vhost)
    (idty : backendIdentity) (res : HandleResult)
    (hauth : authenticate parse ctx req.Identity = (some vhost, some idty, true))
    (hreq : idty.Kind = BackendSocketReq)
    (hres : handle parse json newToken ctx heap (some req) = .ok res) :
    (∃ r, dispatchReq json newToken vhost heap req = .ok r ∧ res.status = r.status) ∧
    (res.status.Code < 300 ∨ 400 ≤ res.status.Code) ∧
    (res.status.Code < 300 →
      (req.Command ≠ "AT" ∧ res.sent = [["OK"]]) ∨
      (req.Command = "AT" ∧
        ∃ token, token = (vhost.GenerateSingleAccessToken newToken (req.Message.getD 0 "")
            (req.Message.getD 1 "")).1 ∧
          token ≠ "" ∧ res.sent = [["AT", token]])) ∧
    (400 ≤ res.status.Code → res.sent = [["ER", toString res.status.Code]]) := by
  have hk : ¬ BackendSocketReq = BackendSocketDealer := by decide
  simp only [handle, hauth, Bool.not_true, Bool.false_eq_true, if_false, hk, hreq, if_true] at hres
  cases hd : dispatchReq json newToken vhost heap req with
  | error e => simp [hd] at hres
  | ok r =>
    simp only [hd] at hres
    injection hres with hres
    subst hres
    have hs := dispatchReq_shape json newToken vhost heap req r hd
    refine ⟨⟨r, rfl, rfl⟩, ?_⟩
    dsimp only
    rcases hs with ⟨h1, h2⟩ | ⟨h0, h1, h2⟩ | ⟨h0, h2, token, ht, h3, h1⟩
    · refine ⟨Or.inr h2, fun h => absurd h (by omega), fun _ => ?_⟩
      simp [logStatus, h1, h2]
    · have h4 : ¬ (r.status.Code ≥ 400) := by omega
      have h5 : ¬ (r.status.Code ≥ 300 ∧ r.status.Code < 400) := by omega
      refine ⟨Or.inl h2, fun _ => Or.inl ⟨h0, ?_⟩, fun h => absurd h (by omega)⟩
      simp [logStatus, h1, h4, h5]
    · have h4 : ¬ (r.status.Code ≥ 400) := by omega
      have h5 : ¬ (r.status.Code ≥ 300 ∧ r.status.Code < 400) := by omega
      refine ⟨Or.inl h2, fun _ => Or.inr ⟨h0, token, ht, h3, ?_⟩, fun h => absurd h (by omega)⟩
      simp [logStatus, h1, h4, h5]

/-- Claim C9, amended, at the request `AT joe .*` on `/demo`: the status is 270
and the reply is the frame `AT` and the token that `GenerateSingleAccessToken`
returned for `joe` and `.*`. -/
theorem req_reply_shape_witness :
    (authenticate parseBackendIdentity demoContext (reqIdentity demoToken)
        = (some demoVhost, some ⟨"req", "/demo", demoToken,
            "12345678-90ab-cdef-0123-1234567890ab"⟩, true) ∧
      "req" = BackendSocketReq) ∧
    ∃ res, handle parseBackendIdentity scenarioUnmarshal scenarioToken demoContext freshHeap
          (some ⟨reqIdentity demoToken, "AT", ["joe", ".*"]⟩) = .ok res ∧
      res.status = ⟨"Single access token generated", 270⟩ ∧
      res.sent = [["AT", (demoVhost.GenerateSingleAccessToken scenarioToken "joe" ".*").1]] ∧
      ((∃ r, dispatchReq scenarioUnmarshal scenarioToken demoVhost freshHeap
            ⟨reqIdentity demoToken, "AT", ["joe", ".*"]⟩ = .ok r ∧ res.status = r.status) ∧
        (res.status.Code < 300 ∨ 400 ≤ res.status.Code) ∧
        (res.status.Code < 300 →
          ("AT" ≠ "AT" ∧ res.sent = [["OK"]]) ∨
          ("AT" = "AT" ∧
            ∃ token, token = (demoVhost.GenerateSingleAccessToken scenarioToken
                (List.getD ["joe", ".*"] 0 "") (List.getD ["joe", ".*"] 1 "")).1 ∧
              token ≠ "" ∧ res.sent = [["AT", token]])) ∧
        (400 ≤ res.status.Code → res.sent = [["ER", toString res.status.Code]])) :=
  ⟨⟨rfl, rfl⟩, _, rfl, rfl, rfl,
    req_reply_shape parseBackendIdentity scenarioUnmarshal scenarioToken demoContext freshHeap
      ⟨reqIdentity demoToken, "AT", ["joe", ".*"]⟩ demoVhost
      ⟨"req", "/demo", demoToken, "12345678-90ab-cdef-0123-1234567890ab"⟩ _ rfl rfl rfl⟩

/-! ## The kind predicates -/

theorem land_private_of_presence (k : Int)
    (h : Int.land k ChannelPresence = ChannelPresence) :
    Int.land k ChannelPrivate = ChannelPrivate := by
  cases k with
  | ofNat m =>
    have h1 : ((m &&& 3 : Nat) : Int) = 3 := h
    have h2 : m &&& 3 = 3 := by exact_mod_cast h1
    have h3 : m &&& 2 = 2 := by
      have e : (2 : Nat) = 3 &&& 2 := by decide
      rw [e, ← Nat.land_assoc, h2]
    show ((m &&& 2 : Nat) : Int) = 2
    rw [h3]; rfl
  | negSucc m =>
    have h1 : ((Nat.ldiff 3 m : Nat) : Int) = 3 := h
    have h2 : Nat.ldiff 3 m = 3 := by exact_mod_cast h1
    have h3 : Nat.ldiff 2 m = 2 := by
      apply Nat.eq_of_testBit_eq
      intro i
      have hb := congrArg (fun n => Nat.testBit n i) h2
      simp only [Nat.testBit_ldiff] at hb
      rw [Nat.testBit_ldiff]
      have e : Nat.testBit 2 i = (Nat.testBit 2 i && Nat.testBit 3 i) := by
        have e2 : (2 : Nat) = 2 &&& 3 := by decide
        conv_lhs => rw [e2]
        rw [Nat.testBit_and]
      cases h2i : Nat.testBit 2 i
      · simp
      · rw [h2i] at e
        have h3i : Nat.testBit 3 i = true := by simpa using e.symm
        rw [h3i] at hb
        simpa using hb
    show ((Nat.ldiff 2 m : Nat) : Int) = 2
    rw [h3]; rfl

/-- Claim C17. For the three channel kinds, `IsPrivate` is false for a normal
channel and true for a private and for a presence channel, and `IsPresence` is
true for a presence channel and false for a normal and for a private one; and
for every value of the kind, `IsPresence` implies `IsPrivate`. -/
theorem kind_predicates (ch : Channel) :
    (ch.kind = ChannelNormal → ch.IsPrivate = false ∧ ch.IsPresence = false) ∧
    (ch.kind = ChannelPrivate → ch.IsPrivate = true ∧ ch.IsPresence = false) ∧
    (ch.kind = ChannelPresence → ch.IsPrivate = true ∧ ch.IsPresence = true) ∧
    (ch.IsPresence = true → ch.IsPrivate = true) := by
  refine ⟨?_, ?_, ?_, ?_⟩
  · intro h
    simp only [Channel.IsPrivate, Channel.IsPresence, h]
    decide
  · intro h
    simp only [Channel.IsPrivate, Channel.IsPresence, h]
    decide
  · intro h
    simp only [Channel.IsPrivate, Channel.IsPresence, h]
    decide
  · intro h
    simp only [Channel.IsPrivate, Channel.IsPresence, decide_eq_true_eq] at h ⊢
    exact land_private_of_presence ch.kind h

/-! ## The channel-name pattern -/

theorem matchList_none (cs : List Char) : Regex.matchList .none cs = false := by
  induction cs with
  | nil => rfl
  | cons c cs ih => simpa [Regex.matchList, Regex.deriv] using ih

theorem matchList_seq_none (b : Regex) (cs : List Char) :
    Regex.matchList (.seq .none b) cs = false := by
  induction cs with
  | nil => rfl
  | cons c cs ih => simpa [Regex.matchList, Regex.deriv, Regex.nullable] using ih

theorem matchList_alt (a b : Regex) (cs : List Char) :
    Regex.matchList (.alt a b) cs = (a.matchList cs || b.matchList cs) := by
  induction cs generalizing a b with
  | nil => rfl
  | cons c cs ih => simp [Regex.matchList, Regex.deriv, ih]

theorem matchList_eps_star (g : Char → Bool) (cs : List Char) :
    Regex.matchList (.seq .eps (.star (.cls g))) cs = cs.all g := by
  induction cs with
  | nil => rfl
  | cons c cs ih =>
    simp only [Regex.matchList, Regex.deriv, Regex.nullable, if_true, matchList_alt,
      matchList_seq_none, Bool.false_or, List.all_cons]
    cases hg : g c
    · simp [matchList_seq_none]
    · simp [ih]

theorem matchList_cls_star (f g : Char → Bool) (cs : List Char) :
    Regex.matchList (.seq (.cls f) (.star (.cls g))) cs =
      match cs with
      | [] => false
      | c :: rest => f c && rest.all g := by
  cases cs with
  | nil => rfl
  | cons c rest =>
    simp only [Regex.matchList, Regex.deriv, Regex.nullable, Bool.false_eq_true, if_false]
    cases hf : f c
    · simp [matchList_seq_none]
    · simp [matchList_eps_star]

theorem perl_first_class (c : Char) :
    (perlWord c || perlDigit c || decide (c = '_')) = isWordChar c := by
  simp only [perlWord, perlDigit, isWordChar]
  cases decide ('0' ≤ c) <;> cases decide (c ≤ '9') <;> cases decide ('A' ≤ c) <;>
    cases decide (c ≤ 'Z') <;> cases decide ('a' ≤ c) <;> cases decide (c ≤ 'z') <;>
    cases decide (c = '_') <;> rfl

theorem perl_rest_class (c : Char) :
    (perlWord c || perlDigit c || decide (c = '-') || decide (c = '_') || decide (c = '.'))
      = isNameChar c := by
  simp only [perlWord, perlDigit, isNameChar, isWordChar]
  cases decide ('0' ≤ c) <;> cases decide (c ≤ '9') <;> cases decide ('A' ≤ c) <;>
    cases decide (c ≤ 'Z') <;> cases decide ('a' ≤ c) <;> cases decide (c ≤ 'z') <;>
    cases decide (c = '_') <;> cases decide (c = '-') <;> cases decide (c = '.') <;> rfl

/-- The test `validChannelName` is the match of `validChannelNamePattern` on the
whole name. -/
theorem validChannelName_eq_match (name : String) :
    validChannelName name = validChannelNamePattern.matchList name.toList := by
  unfold validChannelName validChannelNamePattern
  rw [matchList_cls_star]
  cases name.toList with
  | nil => rfl
  | cons c cs =>
    have e : (fun c => perlWord c || perlDigit c || decide (c = '-') || decide (c = '_') ||
        decide (c = '.')) = isNameChar := funext perl_rest_class
    simp only [perl_first_class, e]

theorem isWordChar_words (c : Char) :
    isWordChar c = true ↔ (c.isAlpha = true ∨ c.isDigit = true ∨ c = '_') := by
  simp only [isWordChar, Char.isAlpha, Char.isDigit, Char.isUpper, Char.isLower, Bool.or_eq_true,
    Bool.and_eq_true, decide_eq_true_eq, ge_iff_le]
  have h1 : ∀ a b : Char, a ≤ b ↔ a.val ≤ b.val := fun _ _ => Iff.rfl
  simp only [h1]
  have : 'a'.val = 97 ∧ 'z'.val = 122 ∧ 'A'.val = 65 ∧ 'Z'.val = 90 ∧ '0'.val = 48 ∧
      '9'.val = 57 := by decide
  obtain ⟨e1, e2, e3, e4, e5, e6⟩ := this
  rw [e1, e2, e3, e4, e5, e6]
  tauto

theorem isNameChar_words (c : Char) :
    isNameChar c = true ↔
      (c.isAlpha = true ∨ c.isDigit = true ∨ c = '_' ∨ c = '-' ∨ c = '.') := by
  simp only [isNameChar, Bool.or_eq_true, decide_eq_true_eq, isWordChar_words]
  tauto

theorem validChannelName_words (name : String) :
    validChannelName name = true ↔ NameInWords name := by
  unfold validChannelName NameInWords
  cases name.toList with
  | nil => simp
  | cons c cs =>
    simp only [Bool.and_eq_true, List.all_eq_true, isWordChar_words, isNameChar_words]
    constructor
    · rintro ⟨h1, h2⟩
      exact ⟨c, cs, rfl, h1, h2⟩
    · rintro ⟨c1, cs1, e, h1, h2⟩
      injection e with e1 e2
      subst e1 e2
      exact ⟨h1, h2⟩

/-- Claim C13. `newChannel(name, kind)` returns a channel exactly if
`validChannelNamePattern` matches the name, which is the case exactly if the
name is non-empty, starts with an ASCII letter, digit or underscore and goes
on with ASCII letters, digits, underscores, dashes and dots only. On a match
the channel has the given name and kind, is alive and has no subscribers;
otherwise the error is "invalid channel name" and there is no channel. The
empty name and names that start with a dash or a dot or contain a space, a
slash or a newline are rejected. -/
theorem newChannel_iff_valid_name (name : String) (kind : Int) :
    (newChannel name kind =
      if validChannelNamePattern.matchList name.toList = true then
        .ok { name := name, kind := kind, subscribers := [], alive := true, mtx := false }
      else .error "invalid channel name") ∧
    (validChannelNamePattern.matchList name.toList = true ↔ NameInWords name) ∧
    ((∃ ch, newChannel name kind = .ok ch) ↔ NameInWords name) ∧
    newChannel "" kind = .error "invalid channel name" ∧
    newChannel "-room" kind = .error "invalid channel name" ∧
    newChannel ".room" kind = .error "invalid channel name" ∧
    newChannel "my room" kind = .error "invalid channel name" ∧
    newChannel "my/room" kind = .error "invalid channel name" ∧
    newChannel "room\n" kind = .error "invalid channel name" ∧
    newChannel "Room_1.a-b" kind
      = .ok { name := "Room_1.a-b", kind := kind, subscribers := [], alive := true,
              mtx := false } := by
  have hw := validChannelName_words name
  rw [validChannelName_eq_match] at hw
  refine ⟨?_, hw, ?_, rfl, rfl, rfl, rfl, rfl, rfl, rfl⟩
  · unfold newChannel
    rw [validChannelName_eq_match]
    cases validChannelNamePattern.matchList name.toList <;> rfl
  · rw [← hw]
    unfold newChannel
    rw [validChannelName_eq_match]
    cases validChannelNamePattern.matchList name.toList <;> simp

/-! ## The kind of a channel from its name -/

theorem splitAt_ne_nil (sep : Char) (cs : List Char) : splitAt sep cs ≠ [] := by
  cases cs with
  | nil => simp [splitAt]
  | cons c rest =>
    unfold splitAt
    split
    · simp
    · split <;> simp

theorem splitAt_head (sep : Char) (cs : List Char) :
    (splitAt sep cs).head? = some (cs.takeWhile (fun c => c ≠ sep)) := by
  induction cs with
  | nil => rfl
  | cons c rest ih =>
    unfold splitAt
    by_cases h : c = sep
    · simp [h]
    · rw [if_neg h]
      cases hs : splitAt sep rest with
      | nil => exact absurd hs (splitAt_ne_nil sep rest)
      | cons f fs =>
        rw [hs] at ih
        simp only [List.head?_cons, Option.some.injEq] at ih
        simp [h, ih]

theorem splitAt_length (sep : Char) (cs : List Char) :
    (splitAt sep cs).length > 1 ↔ sep ∈ cs := by
  induction cs with
  | nil => simp [splitAt]
  | cons c rest ih =>
    unfold splitAt
    by_cases h : c = sep
    · have := splitAt_ne_nil sep rest
      have hl : 0 < (splitAt sep rest).length := List.length_pos.2 this
      simp [h]
      omega
    · rw [if_neg h]
      cases hs : splitAt sep rest with
      | nil => exact absurd hs (splitAt_ne_nil sep rest)
      | cons f fs =>
        rw [hs] at ih
        simp only [List.length_cons] at ih ⊢
        rw [ih]
        simp [Ne.symm h]

/-- The function `channelTypeFromName` agrees with its reading through
`strings.Split`. -/
theorem channelTypeFromName_eq_bySplit (name : String) :
    channelTypeFromName name = channelTypeFromNameBySplit name := by
  unfold channelTypeFromName channelTypeFromNameBySplit
  simp only [splitAt_length, splitAt_head]

theorem takeWhile_prefix_iff (p l : List Char) (hp : '-' ∉ p) :
    (l.takeWhile (fun c => c ≠ '-') = p ∧ '-' ∈ l) ↔ ∃ t, l = p ++ '-' :: t := by
  induction p generalizing l with
  | nil =>
    cases l with
    | nil => simp
    | cons c r =>
      by_cases hc : c = '-'
      · subst hc
        simp [List.takeWhile]
      · have hc2 : ¬ '-' = c := fun e => hc e.symm
        simp [List.takeWhile, hc, hc2]
  | cons a p ih =>
    have ha : a ≠ '-' := fun e => hp (e ▸ List.mem_cons_self _ _)
    have hp2 : '-' ∉ p := fun h => hp (List.mem_cons_of_mem _ h)
    cases l with
    | nil => simp
    | cons c r =>
      by_cases hc : c = '-'
      · subst hc
        have : ¬ '-' = a := fun e => ha e.symm
        simp [List.takeWhile, this]
      · have hc2 : ¬ '-' = c := fun e => hc e.symm
        have h1 : List.takeWhile (fun c => decide (c ≠ '-')) (c :: r)
            = c :: List.takeWhile (fun c => decide (c ≠ '-')) r := by
          simp [List.takeWhile, hc]
        rw [h1]
        simp only [List.cons.injEq, List.mem_cons, hc2, false_or, List.cons_append]
        constructor
        · rintro ⟨⟨e1, e2⟩, h3⟩
          obtain ⟨t, ht⟩ := (ih r hp2).1 ⟨e2, h3⟩
          exact ⟨t, e1, ht⟩
        · rintro ⟨t, e1, ht⟩
          have := (ih r hp2).2 ⟨t, ht⟩
          exact ⟨⟨e1, this.1⟩, this.2⟩

theorem begins_with_iff (pre name : String) :
    (∃ s : String, name = pre ++ s) ↔ ∃ t : List Char, name.toList = pre.toList ++ t := by
  constructor
  · rintro ⟨s, rfl⟩
    exact ⟨s.toList, by simp [String.toList]⟩
  · rintro ⟨t, h⟩
    refine ⟨String.mk t, ?_⟩
    apply String.ext
    simpa [String.toList] using h

theorem channelTypeFromName_cases (name : String) :
    (channelTypeFromName name = ChannelPresence ↔
      (name.toList.takeWhile (fun c => c ≠ '-') = "presence".toList ∧ '-' ∈ name.toList)) ∧
    (channelTypeFromName name = ChannelPrivate ↔
      (name.toList.takeWhile (fun c => c ≠ '-') = "private".toList ∧ '-' ∈ name.toList)) ∧
    (channelTypeFromName name = ChannelPresence ∨ channelTypeFromName name = ChannelPrivate ∨
      channelTypeFromName name = ChannelNormal) := by
  have e1 : ∀ l : List Char, String.mk l = "presence" ↔ l = "presence".toList := by
    intro l
    exact ⟨fun h => congrArg String.toList h, fun h => by subst h; rfl⟩
  have e2 : ∀ l : List Char, String.mk l = "private" ↔ l = "private".toList := by
    intro l
    exact ⟨fun h => congrArg String.toList h, fun h => by subst h; rfl⟩
  have d1 : ChannelPrivate ≠ ChannelPresence := by decide
  have d2 : ChannelNormal ≠ ChannelPresence := by decide
  have d3 : ChannelNormal ≠ ChannelPrivate := by decide
  have d4 : "private".toList ≠ "presence".toList := by decide
  by_cases hd : '-' ∈ name.toList
  · by_cases h1 : String.mk (name.toList.takeWhile (fun c => c ≠ '-')) = "presence"
    · have hv : channelTypeFromName name = ChannelPresence := by
        unfold channelTypeFromName
        rw [if_pos hd]
        exact if_pos h1
      have h1' := (e1 _).1 h1
      have h2' : name.toList.takeWhile (fun c => c ≠ '-') ≠ "private".toList := by
        rw [h1']; exact fun e => d4 e.symm
      rw [hv]
      exact ⟨⟨fun _ => ⟨h1', hd⟩, fun _ => rfl⟩,
        ⟨fun e => absurd e.symm d1, fun e => absurd e.1 h2'⟩, Or.inl rfl⟩
    · have h1' : name.toList.takeWhile (fun c => c ≠ '-') ≠ "presence".toList :=
        fun e => h1 ((e1 _).2 e)
      by_cases h2 : String.mk (name.toList.takeWhile (fun c => c ≠ '-')) = "private"
      · have hv : channelTypeFromName name = ChannelPrivate := by
          unfold channelTypeFromName
          rw [if_pos hd]
          show (if _ then _ else if _ then _ else _) = _
          rw [if_neg h1, if_pos h2]
        rw [hv]
        exact ⟨⟨fun e => absurd e d1, fun e => absurd e.1 h1'⟩,
          ⟨fun _ => ⟨(e2 _).1 h2, hd⟩, fun _ => rfl⟩, Or.inr (Or.inl rfl)⟩
      · have h2' : name.toList.takeWhile (fun c => c ≠ '-') ≠ "private".toList :=
          fun e => h2 ((e2 _).2 e)
        have hv : channelTypeFromName name = ChannelNormal := by
          unfold channelTypeFromName
          rw [if_pos hd]
          show (if _ then _ else if _ then _ else _) = _
          rw [if_neg h1, if_neg h2]
        rw [hv]
        exact ⟨⟨fun e => absurd e d2, fun e => absurd e.1 h1'⟩,
          ⟨fun e => absurd e d3, fun e => absurd e.1 h2'⟩, Or.inr (Or.inr rfl)⟩
  · have hv : channelTypeFromName name = ChannelNormal := by
      unfold channelTypeFromName
      rw [if_neg hd]
    rw [hv]
    exact ⟨⟨fun e => absurd e d2, fun e => absurd e.2 hd⟩,
      ⟨fun e => absurd e d3, fun e => absurd e.2 hd⟩, Or.inr (Or.inr rfl)⟩

/-- Claim C12. For every name, `channelTypeFromName(name)` is `ChannelPresence`
exactly if the name begins with `presence-`, `ChannelPrivate` exactly if it
begins with `private-`, and `ChannelNormal` otherwise; so the kind of
`presence-` followed by any suffix is presence and that of `private-` followed
by any suffix is private, the suffix being empty or holding dashes included,
while `presence`, `private` and `presence_x` are normal. -/
theorem channelTypeFromName_by_prefix (name : String) :
    (channelTypeFromName name = ChannelPresence ↔ ∃ s : String, name = "presence-" ++ s) ∧
    (channelTypeFromName name = ChannelPrivate ↔ ∃ s : String, name = "private-" ++ s) ∧
    ((¬ ∃ s : String, name = "presence-" ++ s) → (¬ ∃ s : String, name = "private-" ++ s) →
      channelTypeFromName name = ChannelNormal) ∧
    (∀ s : String, channelTypeFromName ("presence-" ++ s) = ChannelPresence) ∧
    (∀ s : String, channelTypeFromName ("private-" ++ s) = ChannelPrivate) ∧
    channelTypeFromName "presence-" = ChannelPresence ∧
    channelTypeFromName "private-a-b" = ChannelPrivate ∧
    channelTypeFromName "presence" = ChannelNormal ∧
    channelTypeFromName "private" = ChannelNormal ∧
    channelTypeFromName "presence_x" = ChannelNormal := by
  have hpre : ∀ n : String, channelTypeFromName n = ChannelPresence ↔
      ∃ s : String, n = "presence-" ++ s := by
    intro n
    rw [(channelTypeFromName_cases n).1, takeWhile_prefix_iff _ _ (by decide), begins_with_iff]
    rfl
  have hpri : ∀ n : String, channelTypeFromName n = ChannelPrivate ↔
      ∃ s : String, n = "private-" ++ s := by
    intro n
    rw [(channelTypeFromName_cases n).2.1, takeWhile_prefix_iff _ _ (by decide), begins_with_iff]
    rfl
  refine ⟨hpre name, hpri name, ?_, fun s => (hpre _).2 ⟨s, rfl⟩, fun s => (hpri _).2 ⟨s, rfl⟩,
    by decide, by decide, by decide, by decide, by decide⟩
  intro h1 h2
  rcases (channelTypeFromName_cases name).2.2 with h | h | h
  · exact absurd ((hpre name).1 h) h1
  · exact absurd ((hpri name).1 h) h2
  · exact h

/-! ## The open-channel request -/

theorem channel_after_open (v : Vhost) (name : String) (ch : Channel)
    (hn : ch.name = name) (hv : v.Channel name = none) :
    Vhost.Channel { v with channels := v.channels ++ [ch] } name = some ch := by
  unfold Vhost.Channel at hv ⊢
  simp only [List.find?_append, hv, Option.none_or]
  simp [List.find?, hn]

/-- Claim C11. `handleReqOpenChannel` returns 400 Bad request for a request
without payload frame or with an empty channel frame; otherwise 251 Channel
exists with the reply `OK` and the vhost as it was if the vhost has a channel
of that name; otherwise 451 Invalid channel name, with no reply and the vhost
as it was, if the name does not match the channel-name pattern; otherwise 250
Channel opened with the reply `OK`, the new channel entered in the table after
the existing ones, alive, without subscribers and of the kind
`channelTypeFromName(name)`. -/
theorem openChannel_statuses (vhost : Vhost) (heap : Heap) (identity command name : String)
    (rest : List String) :
    handleReqOpenChannel vhost heap ⟨identity, command, []⟩
      = ⟨⟨"Bad request", 400⟩, [], vhost, heap⟩ ∧
    (name = "" →
      handleReqOpenChannel vhost heap ⟨identity, command, name :: rest⟩
        = ⟨⟨"Bad request", 400⟩, [], vhost, heap⟩) ∧
    (name ≠ "" → (∃ ch, vhost.Channel name = some ch) →
      handleReqOpenChannel vhost heap ⟨identity, command, name :: rest⟩
        = ⟨⟨"Channel exists", 251⟩, [["OK"]], vhost, heap⟩) ∧
    (name ≠ "" → vhost.Channel name = none → ¬ NameInWords name →
      handleReqOpenChannel vhost heap ⟨identity, command, name :: rest⟩
        = ⟨⟨"Invalid channel name", 451⟩, [], vhost, heap⟩) ∧
    (name ≠ "" → vhost.Channel name = none → NameInWords name →
      handleReqOpenChannel vhost heap ⟨identity, command, name :: rest⟩
        = ⟨⟨"Channel opened", 250⟩, [["OK"]],
            { vhost with channels := vhost.channels ++
              [⟨name, channelTypeFromName name, [], true, false, []⟩] }, heap⟩ ∧
      Vhost.Channel { vhost with channels := vhost.channels ++
          [⟨name, channelTypeFromName name, [], true, false, []⟩] } name
        = some ⟨name, channelTypeFromName name, [], true, false, []⟩) := by
  have h1 : ¬ (backendRequest.Len ⟨identity, command, name :: rest⟩ < 1) := by
    simp [backendRequest.Len]
  refine ⟨rfl, ?_, ?_, ?_, ?_⟩
  · intro hn
    unfold handleReqOpenChannel
    rw [if_neg h1]
    exact if_pos hn
  · rintro hn ⟨ch, hc⟩
    unfold handleReqOpenChannel
    rw [if_neg h1]
    simp only [List.getD_cons_zero]
    rw [if_neg hn, hc]
  · intro hn hc hw
    have hv : validChannelName name = false := by
      cases h : validChannelName name
      · rfl
      · exact absurd ((validChannelName_words name).1 h) hw
    unfold handleReqOpenChannel
    rw [if_neg h1]
    simp only [List.getD_cons_zero]
    rw [if_neg hn, hc]
    simp [Vhost.OpenChannel, newChannel, hv]
  · intro hn hc hw
    have hv : validChannelName name = true := (validChannelName_words name).2 hw
    refine ⟨?_, channel_after_open vhost name _ rfl hc⟩
    unfold handleReqOpenChannel
    rw [if_neg h1]
    simp only [List.getD_cons_zero]
    rw [if_neg hn, hc]
    simp [Vhost.OpenChannel, newChannel, hv]

/-! ## Repeated calls, nil clients and channels that are not alive -/

theorem subscribe_nil (ch : Channel) (h : Heap) (hidden : Bool) (d : Option Data) :
    ch.subscribe h none hidden d = .ok (ch, h) := rfl

theorem unsubscribe_nil (ch : Channel) (h : Heap) (d : Option Data) (confirm : Bool) :
    ch.unsubscribe h none d confirm = .ok (ch, h) := rfl

theorem subscribe_twice (ch : Channel) (h : Heap) (c : ConnRef) (hidden hidden2 : Bool)
    (d : Data) (d2 : Option Data) (hm : ch.mtx = false) (ha : ch.alive = true) :
    ∃ st, ch.subscribe h (some c) hidden (some d) = .ok st ∧
      st.1.subscribe st.2 (some c) hidden2 d2 = .ok st := by
  cases hl : lookupSub ch.subscribers (h c).id with
  | some s =>
    have hp := subscribe_present ch h c hidden (some d) hm ha (by simp [hl])
    exact ⟨(ch, h), hp, subscribe_present ch h c hidden2 d2 hm ha (by simp [hl])⟩
  | none =>
    refine ⟨_, subscribe_new ch h c hidden d hm ha hl, ?_⟩
    refine subscribe_present
      (if (ch.IsPresence && !hidden) = true then
        (withSubscriber ch c (h c).id hidden d).start
          [(":memberJoined", .obj (joinData ch (h c).id d))] true
      else withSubscriber ch c (h c).id hidden d)
      ((h.send c (subscribedMsg ch)).addShortcut c ch.name) c hidden2 d2 ?_ ?_ ?_
    · rw [ite_start_mtx]; exact hm
    · rw [ite_start_alive]; exact ha
    · rw [ite_start_subscribers, addShortcut_id, send_id]
      simp only [withSubscriber, lookupSub_insertSub, if_true, Option.isSome_some]

theorem unsubscribe_twice (ch : Channel) (h : Heap) (c : ConnRef) (confirm confirm2 : Bool)
    (d : Data) (d2 : Option Data) (hm : ch.mtx = false) (ha : ch.alive = true) :
    ∃ st, ch.unsubscribe h (some c) (some d) confirm = .ok st ∧
      st.1.unsubscribe st.2 (some c) d2 confirm2 = .ok st := by
  cases hl : lookupSub ch.subscribers (h c).id with
  | none =>
    exact ⟨(ch, h), unsubscribe_absent ch h c (some d) confirm hm ha hl,
      unsubscribe_absent ch h c d2 confirm2 hm ha hl⟩
  | some s =>
    refine ⟨_, unsubscribe_present ch h c d confirm s hm ha hl, ?_⟩
    have hid : ((if confirm = true then h.send c (unsubscribedMsg ch) else h).delShortcut c
        ch.name c).id = (h c).id := by
      rw [delShortcut_id]
      split
      · rw [send_id]
      · rfl
    refine unsubscribe_absent
      (if (ch.IsPresence && !s.hidden) = true then
        (withoutSubscriber ch (h c).id).start
          [(":memberLeft", .obj (leftData ch (h c).id s d))] true
      else withoutSubscriber ch (h c).id)
      ((if confirm = true then h.send c (unsubscribedMsg ch) else h).delShortcut c ch.name)
      c d2 confirm2 ?_ ?_ ?_
    · rw [ite_start_mtx]; exact hm
    · rw [ite_start_alive]; exact ha
    · rw [ite_start_subscribers, hid]
      simp only [withoutSubscriber, lookupSub_deleteSub, if_true]

/-- Claim C14. On an alive channel: `subscribe` of a client that is already
subscribed returns the channel and every connection as they were, so the
subscriber map with the stored hidden flag and metadata, the shortcut maps and
the outboxes are unchanged, and the call returns before it writes to the
caller's data; hence a second `subscribe`, with whatever arguments, changes
nothing after a first one. `unsubscribe` of a client that is not subscribed
returns everything as it was, hence a second `unsubscribe` changes nothing
after a first one. With a nil client either call returns everything as it
was. -/
theorem subscribe_unsubscribe_idempotent (ch : Channel) (h : Heap) (c : ConnRef)
    (hm : ch.mtx = false) (ha : ch.alive = true) :
    (∀ hidden d, (lookupSub ch.subscribers (h c).id).isSome = true →
      ch.subscribe h (some c) hidden d = .ok (ch, h)) ∧
    (∀ hidden d hidden2 d2, ∃ st, ch.subscribe h (some c) hidden (some d) = .ok st ∧
      st.1.subscribe st.2 (some c) hidden2 d2 = .ok st) ∧
    (∀ d confirm, lookupSub ch.subscribers (h c).id = none →
      ch.unsubscribe h (some c) d confirm = .ok (ch, h)) ∧
    (∀ d confirm d2 confirm2, ∃ st, ch.unsubscribe h (some c) (some d) confirm = .ok st ∧
      st.1.unsubscribe st.2 (some c) d2 confirm2 = .ok st) ∧
    (∀ hidden d, ch.subscribe h none hidden d = .ok (ch, h)) ∧
    (∀ d confirm, ch.unsubscribe h none d confirm = .ok (ch, h)) :=
  ⟨fun hidden d hl => subscribe_present ch h c hidden d hm ha hl,
    fun hidden d hidden2 d2 => subscribe_twice ch h c hidden hidden2 d d2 hm ha,
    fun d confirm hl => unsubscribe_absent ch h c d confirm hm ha hl,
    fun d confirm d2 confirm2 => unsubscribe_twice ch h c confirm confirm2 d d2 hm ha,
    fun hidden d => subscribe_nil ch h hidden d,
    fun d confirm => unsubscribe_nil ch h d confirm⟩

/-- Claim C14 at `presence-lobby` with A and B subscribed: B (client 1)
subscribes again and nothing changes; client 2 subscribes twice; B
unsubscribes twice; client 2, not subscribed, unsubscribes. -/
theorem subscribe_unsubscribe_idempotent_witness :
    (lobbyWithAB.mtx = false ∧ lobbyWithAB.alive = true) ∧
    ((∀ hidden d, (lookupSub lobbyWithAB.subscribers (freshHeap 1).id).isSome = true →
      lobbyWithAB.subscribe freshHeap (some 1) hidden d = .ok (lobbyWithAB, freshHeap)) ∧
    (∀ hidden d hidden2 d2,
      ∃ st, lobbyWithAB.subscribe freshHeap (some 1) hidden (some d) = .ok st ∧
        st.1.subscribe st.2 (some 1) hidden2 d2 = .ok st) ∧
    (∀ d confirm, lookupSub lobbyWithAB.subscribers (freshHeap 1).id = none →
      lobbyWithAB.unsubscribe freshHeap (some 1) d confirm = .ok (lobbyWithAB, freshHeap)) ∧
    (∀ d confirm d2 confirm2,
      ∃ st, lobbyWithAB.unsubscribe freshHeap (some 1) (some d) confirm = .ok st ∧
        st.1.unsubscribe st.2 (some 1) d2 confirm2 = .ok st) ∧
    (∀ hidden d, lobbyWithAB.subscribe freshHeap none hidden d = .ok (lobbyWithAB, freshHeap)) ∧
    (∀ d confirm, lobbyWithAB.unsubscribe freshHeap none d confirm
      = .ok (lobbyWithAB, freshHeap))) ∧
    (lookupSub lobbyWithAB.subscribers (freshHeap 1).id).isSome = true ∧
    lookupSub lobbyWithAB.subscribers (freshHeap 2).id = none ∧
    (∃ st, lobbyWithAB.subscribe freshHeap (some 2) false (some []) = .ok st ∧
      (lookupSub st.1.subscribers (freshHeap 2).id).isSome = true ∧
      st.1.subscribe st.2 (some 2) true (some [("name", .str "other")]) = .ok st) :=
  ⟨⟨rfl, rfl⟩, subscribe_unsubscribe_idempotent lobbyWithAB freshHeap 1 rfl rfl, rfl, rfl,
    ⟨_, subscribe_new lobbyWithAB freshHeap 2 false [] rfl rfl rfl, rfl, rfl⟩⟩

theorem subscribe_dead (ch : Channel) (h : Heap) (client : Option ConnRef) (hidden : Bool)
    (d : Option Data) (hm : ch.mtx = false) (ha : ch.alive = false) :
    ch.subscribe h client hidden d = .ok (ch, h) := by
  cases client with
  | none => rfl
  | some c => simp [Channel.subscribe, Channel.IsAlive, Channel.lock, hm, ha]

theorem unsubscribe_dead (ch : Channel) (h : Heap) (client : Option ConnRef)
    (d : Option Data) (confirm : Bool) (hm : ch.mtx = false) (ha : ch.alive = false) :
    ch.unsubscribe h client d confirm = .ok (ch, h) := by
  cases client with
  | none => rfl
  | some c => simp [Channel.unsubscribe, Channel.IsAlive, Channel.lock, hm, ha]

theorem kill_dead (ch : Channel) (h : Heap) (hm : ch.mtx = false) (ha : ch.alive = false) :
    ch.Kill h = .ok (ch, h) := by
  obtain ⟨name, kind, subs, alive, mtx, pending⟩ := ch
  simp only at hm ha
  subst hm ha
  rfl

/-- On a channel that is not alive and whose mutex is free, `subscribe`,
`unsubscribe` and `Kill` return the channel and every connection as they
were; `Broadcast` returns with its goroutine started, the subscriber map, the
alive flag and every connection as they were; and on a channel without
subscribers a goroutine of `Broadcast` sends nothing. -/
theorem dead_channel_noop (ch : Channel) (h : Heap) (hm : ch.mtx = false)
    (ha : ch.alive = false) :
    (∀ client hidden d, ch.subscribe h client hidden d = .ok (ch, h)) ∧
    (∀ client d confirm, ch.unsubscribe h client d confirm = .ok (ch, h)) ∧
    ch.Kill h = .ok (ch, h) ∧
    (∀ x incl, ∃ ch1, ch.Broadcast h x incl = .ok (ch1, h) ∧
      ch1.subscribers = ch.subscribers ∧ ch1.alive = ch.alive) ∧
    (ch.subscribers = [] → ∀ i, (ch.runFanOut h i).2 = h) := by
  refine ⟨fun client hidden d => subscribe_dead ch h client hidden d hm ha,
    fun client d confirm => unsubscribe_dead ch h client d confirm hm ha,
    kill_dead ch h hm ha, fun x incl => ⟨_, broadcast_ok ch h x incl hm, rfl, rfl⟩, ?_⟩
  intro hs i
  unfold Channel.runFanOut
  split
  · rfl
  · rw [hs]
    rfl

/-- When `Kill` returns on an alive channel, no subscription of the channel
had a client. -/
theorem kill_returns_only_without_clients (ch : Channel) (h : Heap) (st : Channel × Heap)
    (hm : ch.mtx = false) (ha : ch.alive = true) (hk : ch.Kill h = .ok st) :
    ∀ e ∈ ch.subscribers, e.2.client = none := by
  intro e he
  by_contra hne
  rw [kill_deadlocks ch h hm ha ⟨e, he, hne⟩] at hk
  cases hk

/-- Claim C15 at the channel `room` that is not alive and still holds the
subscriber client 0: `Broadcast` returns, and the goroutine it has started
sends the payload to client 0. And from the new channel `room`, after
`subscribe(client 0)` and `Kill`, a `Broadcast` is never carried out, because
`Kill` does not return. -/
theorem broadcast_on_dead_channel_sends :
    deadRoomWithA.alive = false ∧
    (∃ st, deadRoomWithA.Broadcast freshHeap [("ping", .null)] false = .ok st ∧
      st.1.alive = false ∧ (freshHeap 0).outbox = [] ∧
      st.1.pending = [([("ping", .null)], false)] ∧
      ((st.1.runFanOut st.2 0).2 0).outbox = [[("ping", .null)]]) ∧
    (∃ ch, newChannel "room" ChannelNormal = .ok ch ∧
      run [Op.subscribe 0 false [], Op.kill, Op.broadcast [("ping", .null)] false]
        (ch, freshHeap) = .error .deadlock) :=
  ⟨rfl, ⟨_, rfl, rfl, rfl, rfl, rfl⟩, _, rfl, rfl⟩

/-! ## Kill of the backend endpoint -/

/-- Claim C16. `Kill` of a backend endpoint whose mutex is free returns, and
`IsAlive` is false afterwards, whatever the alive flag and the listener were;
an endpoint that was not alive or had no listener is returned unchanged, so
nothing is closed and no lobby is killed; an endpoint that was alive with a
listener is marked not alive, its listener closed and its lobbys killed; and a
second `Kill` returns the endpoint the first one left. -/
theorem backend_kill (w : BackendEndpoint) (hm : w.mtx = false) :
    ∃ w1, w.Kill = .ok w1 ∧ w1.IsAlive = .ok false ∧
      ((w.alive = false ∨ w.listener = none) → w1 = w) ∧
      (∀ l, w.alive = true → w.listener = some l →
        w1 = { w with alive := false, listener := some { l with closed := true },
                      lobbys := killAllLobbys w.lobbys }) ∧
      w1.Kill = .ok w1 := by
  obtain ⟨addr, lobbys, listener, alive, mtx⟩ := w
  simp only at hm
  subst hm
  cases listener with
  | none =>
    refine ⟨_, rfl, ?_, fun _ => rfl, ?_, rfl⟩
    · simp [BackendEndpoint.IsAlive]
    · intro l _ h2
      cases h2
  | some l =>
    cases alive with
    | false =>
      refine ⟨_, rfl, ?_, fun _ => rfl, ?_, rfl⟩
      · simp [BackendEndpoint.IsAlive]
      · intro l1 h1 _
        cases h1
    | true =>
      refine ⟨_, rfl, ?_, ?_, ?_, rfl⟩
      · simp [BackendEndpoint.IsAlive]
      · rintro (h1 | h1) <;> cases h1
      · intro l1 _ h2
        injection h2 with h2
        subst h2
        rfl

/-- Claim C16 at a backend endpoint that was created and never served, alone
and in a context with a websocket endpoint that was created and never served:
after `Kill`, `IsAlive` is false for both. -/
theorem backend_kill_witness :
    (newBackendEndpoint ":9773").mtx = false ∧
    (∃ w1, (newBackendEndpoint ":9773").Kill = .ok w1 ∧ w1.IsAlive = .ok false ∧
      (((newBackendEndpoint ":9773").alive = false ∨
          (newBackendEndpoint ":9773").listener = none) → w1 = newBackendEndpoint ":9773") ∧
      (∀ l, (newBackendEndpoint ":9773").alive = true →
        (newBackendEndpoint ":9773").listener = some l →
        w1 = { newBackendEndpoint ":9773" with
                alive := false, listener := some { l with closed := true },
                lobbys := killAllLobbys (newBackendEndpoint ":9773").lobbys }) ∧
      w1.Kill = .ok w1) ∧
    (∃ e ws b, ContextEndpoints.Kill
        ⟨some ⟨":9772", none, false⟩, some (newBackendEndpoint ":9773")⟩ = .ok e ∧
      e.websocket = some ws ∧ e.backend = some b ∧
      ws.IsAlive = false ∧ b.IsAlive = .ok false) :=
  ⟨rfl, backend_kill (newBackendEndpoint ":9773") rfl, _, _, _, rfl, rfl, rfl, rfl, rfl⟩

/-! ## Totality of the broadcast request -/

/-- With a body that decodes to an object or does not decode at all, and the
mutex of the addressed channel free, `handleReqBroadcast` returns one of the
statuses 400, 454 and 204 for every request with at least three payload
frames. -/
theorem handleReqBroadcast_returns (json : String → Unmarshaled) (vhost : Vhost) (heap : Heap)
    (identity command chan event body : String) (rest : List String)
    (hj : json body ≠ .null) (hm : ∀ ch, vhost.Channel chan = some ch → ch.mtx = false) :
    ∃ r, handleReqBroadcast json vhost heap ⟨identity, command, chan :: event :: body :: rest⟩
        = .ok r ∧
      (r.status = ⟨"Bad request", 400⟩ ∨ r.status = ⟨"Channel not found", 454⟩ ∨
        r.status = ⟨"Broadcasted", 204⟩) := by
  by_cases hbad : chan = "" ∨ event = ""
  · exact ⟨_, handleReqBroadcast_empty json vhost heap identity command chan event body rest hbad,
      Or.inl rfl⟩
  · have hc : chan ≠ "" := fun e => hbad (Or.inl e)
    have he : event ≠ "" := fun e => hbad (Or.inr e)
    cases hv : vhost.Channel chan with
    | none =>
      exact ⟨_, handleReqBroadcast_missing json vhost heap identity command chan event body rest
        hc he hv, Or.inr (Or.inl rfl)⟩
    | some channel =>
      have hb : ∃ d, bodyOf (json body) = some d := by
        cases hjb : json body with
        | failed => exact ⟨[], rfl⟩
        | null => exact absurd hjb hj
        | object m => exact ⟨m, rfl⟩
      obtain ⟨d, hd⟩ := hb
      exact ⟨_, handleReqBroadcast_found json vhost heap identity command chan event body rest
        channel d hc he hv (hm channel hv) hd, Or.inr (Or.inr rfl)⟩

/-- Claim C18 at the request `BC room hello null` of an authenticated REQ peer
of `/demo`: the request has three payload frames, the channel `room` exists,
and neither `handleReqBroadcast` nor `handle` returns a status: the assignment
of the `channel` key into the nil map faults. -/
theorem broadcast_not_total_on_null :
    backendRequest.Len ⟨reqIdentity demoToken, "BC", ["room", "hello", "null"]⟩ = 3 ∧
    scenarioUnmarshal "null" = .null ∧
    (∃ ch, demoVhost.Channel "room" = some ch) ∧
    handleReqBroadcast scenarioUnmarshal demoVhost freshHeap
        ⟨reqIdentity demoToken, "BC", ["room", "hello", "null"]⟩ = .error .nilMapWrite ∧
    handle parseBackendIdentity scenarioUnmarshal scenarioToken demoContext freshHeap
        (some ⟨reqIdentity demoToken, "BC", ["room", "hello", "null"]⟩) = .error .nilMapWrite :=
  ⟨rfl, rfl, ⟨_, rfl⟩, rfl, rfl⟩

/-! ## HasSubscriber along a sequence of calls with Kill -/

end WebRocket
